import Mathlib

/-!
Verification development for the girder-redcap-mimic-sync repository.

The repository mirrors a four-level medical folder hierarchy
(center → patient → visit → document type) from a local SQLite store into a
remote Girder server, and uploads files with a chunked protocol.

This file shallowly embeds the relevant source functions:

* `src/girder_client.py`: `find_folder`, `create_folder`,
  `get_or_create_folder`, `get_folder_by_id`, `upload_file`;
* `src/sync/extract_sync.py`: `find_girder_folder_path`, `sync_single_file`,
  `get_unsynced_files`, `extract_and_sync_files`;
* `src/database.py`: the `Database` methods used by the sync core;
* `src/scripts/create_girder_schema.py`: `create_girder_schema`;
* `src/app.py`: the `sync_to_girder` endpoint.

Modelling conventions, used throughout:

* The remote Girder service is a value `RemoteState` (a list of folders).
  HTTP `GET` requests are pure reads of that value; transport failures
  (network errors) are not modelled, so `try/except` branches that catch
  them are dead in the model and are noted where they occur in the source.
* Girder chunk-upload responses are supplied by an abstract server function
  `Nat → ChunkResp` giving the JSON body of the response to the k-th chunk
  request.  Field presence in the JSON dict is `Option`.
* File payloads are represented by their byte count only; a transmitted
  chunk is recorded as the slice descriptor (request offset parameter,
  slice start in the payload, slice length).  The source never inspects
  payload bytes, it only forwards slices, so this is faithful.
* Python exceptions become explicit `Except`/sum results.  Exception
  messages that interpolate values are modelled as constructors carrying
  exactly the interpolated values (e.g. a missing folder level's name).
* Log statements are not modelled except for the single size-mismatch
  warning in `upload_file` (girder_client.py line 400), which is surfaced
  as the Boolean field `warned` because the specification talks about it.
-/

/-! ## Embedding of `src/girder_client.py` (folder operations) -/

/-- A Girder folder document: `_id`, `name`, `parentId`, `public`. -/
structure Folder where
  fid : String
  name : String
  parentId : String
  public : Bool := true
deriving DecidableEq, Repr

/-- The remote Girder service: the folders that exist, in server order,
plus a counter used to mint fresh ids for newly created folders. -/
structure RemoteState where
  folders : List Folder
  nextId : Nat := 0
deriving DecidableEq, Repr

/-- `find_folder(name, parent_id)` (girder_client.py lines 68-112):
`GET /folder?parentId=..&name=..&limit=1`; returns the first match or
`None`.  `limit: 1` means only the first matching folder is returned. -/
def find_folder (name parentId : String) (st : RemoteState) : Option Folder :=
  st.folders.find? (fun f => f.name == name && f.parentId == parentId)

/-- `create_folder(name, parent_id, public)` (girder_client.py lines
115-148): `POST /folder`; returns the created folder document.  The model
mints a fresh id and appends the folder to the server state. -/
def create_folder (name parentId : String) (public : Bool := true)
    (st : RemoteState) : Folder × RemoteState :=
  let f : Folder := { fid := "folder" ++ toString st.nextId, name := name,
                      parentId := parentId, public := public }
  (f, { folders := st.folders ++ [f], nextId := st.nextId + 1 })

/-- `get_or_create_folder(name, parent_id, public)` (girder_client.py lines
151-169): find, and create only when the find returns nothing. -/
def get_or_create_folder (name parentId : String) (public : Bool := true)
    (st : RemoteState) : Folder × RemoteState :=
  match find_folder name parentId st with
  | some f => (f, st)
  | none => create_folder name parentId public st

/-- `GirderError` (girder_client.py line 63): raised when an API request
fails.  In the model the only modelled failure is `get_folder_by_id` on an
id that does not exist remotely (the server answers with an error status,
`raise_for_status` throws, and the wrapper re-raises `GirderError`). -/
inductive GirderErr where
  | requestFailed (msg : String)
deriving DecidableEq, Repr

/-- `get_folder_by_id(folder_id)` (girder_client.py lines 197-219):
`GET /folder/{id}`; errors when no folder with that id exists. -/
def get_folder_by_id (folderId : String) (st : RemoteState) :
    Except GirderErr Folder :=
  match st.folders.find? (fun f => f.fid == folderId) with
  | some f => .ok f
  | none => .error (.requestFailed ("Failed to get folder: " ++ folderId))

/-! ## Embedding of `upload_file` (girder_client.py lines 222-409) -/

/-- `CHUNK_SIZE = 10 * 1024 * 1024` (girder_client.py line 303). -/
def CHUNK_SIZE : Nat := 10 * 1024 * 1024

/-- The JSON body of a `POST /file/chunk` response: the `received`, `_id`
and `size` keys, each possibly absent. -/
structure ChunkResp where
  received : Option Nat
  idField : Option String
  sizeField : Option Nat
deriving DecidableEq, Repr

/-- One chunk request, as sent by the client: the `offset` request
parameter, the start of the transmitted slice within the payload (the
stream position of `file_io.read`), and the slice length. -/
structure ChunkCall where
  offsetParam : Nat
  sliceStart : Nat
  len : Nat
deriving DecidableEq, Repr

/-- The `GirderError` raised at girder_client.py line 396:
`"Upload did not complete. Last offset: {offset}, Expected: {file_size}."`
The constructor carries exactly the two interpolated values. -/
inductive UploadErr where
  | girderIncomplete (lastOffset : Nat) (expected : Nat)
deriving DecidableEq, Repr

/-- The outcome of `upload_file`: the returned file document (or the
raised error), the chunk requests performed, the successive values taken
by the `offset` variable after each server response, and whether the
size-mismatch warning of line 400 was logged. -/
structure UploadOutcome where
  result : Except UploadErr ChunkResp
  calls : List ChunkCall
  offsets : List Nat
  warned : Bool

/-- The `while offset < file_size` loop of girder_client.py lines 331-388.
Arguments: the server's responses (indexed by chunk-request number), the
total `file_size`, a fuel bound (the loop terminates because the stream
position `pos` strictly increases; `upload_file` passes `file_size + 1`,
which always suffices), the `offset` variable, the stream position `pos`
of `file_io`, and the index `k` of the next chunk request.

Returns `(file_result, chunk requests, offset values, final offset)`.

Branch map to the source:
* `offset < file_size` is the loop guard (line 331);
* `len = 0` is `if not chunk_data: break` (line 336);
* the `received` update is lines 359-363;
* the `offset ≥ file_size` block is lines 366-385: with both `_id` and
  `size` present the response is the file document (line 369); after the
  0.5 s sleep the SAME response is re-examined, so `_id` alone also ends
  the loop with that response (line 379), and a response with no `_id`
  breaks with no file document (line 385). -/
def uploadChunkLoop (server : Nat → ChunkResp) (fileSize : Nat) :
    Nat → Nat → Nat → Nat →
    Option ChunkResp × List ChunkCall × List Nat × Nat
  | 0, offset, _, _ => (none, [], [], offset)
  | fuel + 1, offset, pos, k =>
    if offset < fileSize then
      let csz := min CHUNK_SIZE (fileSize - offset)
      let len := min csz (fileSize - pos)
      if len = 0 then (none, [], [], offset)
      else
        let resp := server k
        let offset' := (resp.received).getD (offset + len)
        let call : ChunkCall := { offsetParam := offset, sliceStart := pos, len := len }
        if fileSize ≤ offset' then
          if resp.idField.isSome && resp.sizeField.isSome then
            (some resp, [call], [offset'], offset')
          else if resp.idField.isSome then
            (some resp, [call], [offset'], offset')
          else
            (none, [call], [offset'], offset')
        else
          let rest := uploadChunkLoop server fileSize fuel offset' (pos + len) (k + 1)
          (rest.1, call :: rest.2.1, offset' :: rest.2.2.1, rest.2.2.2)
    else (none, [], [], offset)

/-- `upload_file(file_path, folder_id, file_name)` (girder_client.py lines
222-409), for a bytes payload of length `n`.  The MIME-type inference and
the upload-initialisation request do not affect the observed behaviour and
are not modelled here (the initialisation request is accounted for by the
callers that track remote traffic).

* `n ≤ CHUNK_SIZE`: the single-chunk branch (lines 305-318): one request
  at offset 0 carrying the whole payload; `r.json()` is returned with no
  further checks.
* otherwise the chunk loop runs; an absent file document raises the
  incomplete-transfer `GirderError` (line 396) carrying the last offset
  and the expected size, and a present file document whose `size` differs
  from `file_size` logs the warning of line 400 (`file_result.get('size')
  != file_size`; an absent `size` key also warns, since `None != n`). -/
def uploadFile (n : Nat) (server : Nat → ChunkResp) : UploadOutcome :=
  if n ≤ CHUNK_SIZE then
    { result := .ok (server 0),
      calls := [{ offsetParam := 0, sliceStart := 0, len := n }],
      offsets := [], warned := false }
  else
    match uploadChunkLoop server n (n + 1) 0 0 0 with
    | (none, cs, os, fo) =>
      { result := .error (.girderIncomplete fo n),
        calls := cs, offsets := os, warned := false }
    | (some doc, cs, os, _) =>
      { result := .ok doc, calls := cs, offsets := os,
        warned := if doc.sizeField = some n then false else true }

/-! ## Embedding of `src/sync/extract_sync.py` -/

/-- The `ValueError`s raised by `find_girder_folder_path` (extract_sync.py
lines 158, 176, 194, 212).  Each message interpolates the missing level's
name (and its parent's name) and ends with "Please run
create_girder_schema.py first."; the constructors carry exactly the
interpolated values. -/
inductive ResolveErr where
  | centerNotFound (centerGirderName : String)
  | patientNotFound (patientId : String) (centerGirderName : String)
  | visitNotFound (visitName : String) (patientId : String)
  | documentNotFound (documentName : String) (visitName : String)
deriving DecidableEq, Repr

/-- One row of the joined query of `get_unsynced_files` /
`Database.get_file_with_path_info`: the file row plus the names and the
cached Girder folder ids of its four ancestors.  (`mime_type`,
`uploaded_at` and the codes not read by the sync path are omitted.) -/
structure FileInfo where
  id : Nat
  filename : String
  filePath : String
  fileSize : Nat
  syncedToGirder : Bool
  girderFileId : Option String
  centerCode : String
  centerName : String
  patientId : String
  visitName : String
  documentName : String
  centerGirderFolderId : Option String
  patientGirderFolderId : Option String
  visitGirderFolderId : Option String
  docGirderFolderId : Option String
deriving DecidableEq, Repr

/-- A remote HTTP request, for tracking which remote traffic an operation
performs. -/
inductive RemoteCall where
  | getFolder (folderId : String)
  | findChild (name : String) (parentId : String)
  | createChild (name : String) (parentId : String)
  | initUpload (folderId : String) (name : String) (size : Nat)
  | chunkPost (call : ChunkCall)
deriving DecidableEq, Repr

/-- `true` exactly for a folder-creation request. -/
def RemoteCall.isCreate : RemoteCall → Bool
  | .createChild _ _ => true
  | _ => false

/-- One level of `find_girder_folder_path` (e.g. extract_sync.py lines
144-162 for the center): when a folder id is cached, verify it with
`get_folder_by_id` and keep it on success; otherwise (no cached id, or
verification failed) fall back to `find_folder` by name under the parent.
Returns the resolved folder id, or `none` when the name lookup found
nothing (the caller raises the level's `ValueError`). -/
def resolveLevel (cached : Option String) (name parentId : String)
    (st : RemoteState) : Option String :=
  match cached with
  | some cid =>
    match get_folder_by_id cid st with
    | .ok _ => some cid
    | .error _ =>
      match find_folder name parentId st with
      | some f => some f.fid
      | none => none
  | none =>
    match find_folder name parentId st with
    | some f => some f.fid
    | none => none

/-- The remote requests issued by one level of `find_girder_folder_path`:
a `GET /folder/{id}` when an id is cached, then a find-by-name unless the
cached id verified. -/
def resolveLevelCalls (cached : Option String) (name parentId : String)
    (st : RemoteState) : List RemoteCall :=
  match cached with
  | some cid =>
    match get_folder_by_id cid st with
    | .ok _ => [.getFolder cid]
    | .error _ => [.getFolder cid, .findChild name parentId]
  | none => [.findChild name parentId]

/-- `center_girder_name = f"CHU_{center_code}"` (extract_sync.py line 140). -/
def centerGirderName (fi : FileInfo) : String := "CHU_" ++ fi.centerCode

/-- The folder-path string built at extract_sync.py line 219. -/
def folderPathString (fi : FileInfo) : String :=
  centerGirderName fi ++ "/" ++ fi.patientId ++ "/" ++ fi.visitName ++ "/" ++
    fi.documentName

/-- `find_girder_folder_path(file_info, root_folder_id)` (extract_sync.py
lines 112-221): resolve the four levels in order, each via `resolveLevel`,
raising the level's `ValueError` as soon as a level cannot be resolved.
Returns `(doc_folder_id, folder_path)`.  The function only issues `GET`
requests; it never creates folders and never writes to the database. -/
def find_girder_folder_path (fi : FileInfo) (rootFolderId : String)
    (st : RemoteState) : Except ResolveErr (String × String) :=
  match resolveLevel fi.centerGirderFolderId (centerGirderName fi) rootFolderId st with
  | none => .error (.centerNotFound (centerGirderName fi))
  | some centerFolderId =>
    match resolveLevel fi.patientGirderFolderId fi.patientId centerFolderId st with
    | none => .error (.patientNotFound fi.patientId (centerGirderName fi))
    | some patientFolderId =>
      match resolveLevel fi.visitGirderFolderId fi.visitName patientFolderId st with
      | none => .error (.visitNotFound fi.visitName fi.patientId)
      | some visitFolderId =>
        match resolveLevel fi.docGirderFolderId fi.documentName visitFolderId st with
        | none => .error (.documentNotFound fi.documentName fi.visitName)
        | some docFolderId => .ok (docFolderId, folderPathString fi)

/-- The remote requests issued by the same run of
`find_girder_folder_path` (same control flow, collecting the traffic). -/
def find_girder_folder_path_calls (fi : FileInfo) (rootFolderId : String)
    (st : RemoteState) : List RemoteCall :=
  let c1 := resolveLevelCalls fi.centerGirderFolderId (centerGirderName fi) rootFolderId st
  match resolveLevel fi.centerGirderFolderId (centerGirderName fi) rootFolderId st with
  | none => c1
  | some centerFolderId =>
    let c2 := resolveLevelCalls fi.patientGirderFolderId fi.patientId centerFolderId st
    match resolveLevel fi.patientGirderFolderId fi.patientId centerFolderId st with
    | none => c1 ++ c2
    | some patientFolderId =>
      let c3 := resolveLevelCalls fi.visitGirderFolderId fi.visitName patientFolderId st
      match resolveLevel fi.visitGirderFolderId fi.visitName patientFolderId st with
      | none => c1 ++ c2 ++ c3
      | some visitFolderId =>
        let c4 := resolveLevelCalls fi.docGirderFolderId fi.documentName visitFolderId st
        c1 ++ c2 ++ c3 ++ c4

/-! ## Embedding of `src/database.py` -/

/-- A row of the `centers` table. -/
structure CenterRow where
  id : Nat
  code : String
  name : String
  girderFolderId : Option String
deriving DecidableEq, Repr

/-- A row of the `patients` table. -/
structure PatientRow where
  id : Nat
  centerId : Nat
  patientId : String
  girderFolderId : Option String
deriving DecidableEq, Repr

/-- A row of the `visits` table. -/
structure VisitRow where
  id : Nat
  patientId : Nat
  visitName : String
  visitCode : String
  girderFolderId : Option String
deriving DecidableEq, Repr

/-- A row of the `document_types` table. -/
structure DocumentTypeRow where
  id : Nat
  visitId : Nat
  documentName : String
  documentCode : String
  girderFolderId : Option String
deriving DecidableEq, Repr

/-- A row of the `files` table (`mime_type` and `uploaded_at` omitted;
rows are kept in upload order, so the `ORDER BY uploaded_at ASC` of the
queries is list order). -/
structure FileRow where
  id : Nat
  documentTypeId : Nat
  filename : String
  filePath : String
  fileSize : Nat
  girderFileId : Option String
  syncedToGirder : Bool
deriving DecidableEq, Repr

/-- The SQLite database of `database.py` (`redcap_mimic.db`). -/
structure Store where
  centers : List CenterRow
  patients : List PatientRow
  visits : List VisitRow
  documentTypes : List DocumentTypeRow
  files : List FileRow
  nextFileId : Nat := 1
deriving DecidableEq, Repr

/-- `Database.create_file` (database.py lines 247-259): insert a file row
with `girder_file_id` NULL and `synced_to_girder` defaulting to 0;
returns the new row id. -/
def db_create_file (documentTypeId : Nat) (filename filePath : String)
    (fileSize : Nat) (db : Store) : Nat × Store :=
  let fid := db.nextFileId
  (fid,
   { db with
     files := db.files ++
       [{ id := fid, documentTypeId := documentTypeId, filename := filename,
          filePath := filePath, fileSize := fileSize, girderFileId := none,
          syncedToGirder := false }],
     nextFileId := fid + 1 })

/-- `Database.mark_file_synced` (database.py lines 261-269): one `UPDATE`
setting `synced_to_girder = 1` and `girder_file_id` together. -/
def mark_file_synced (fileId : Nat) (girderFileId : String) (db : Store) :
    Store :=
  { db with
    files := db.files.map (fun f =>
      if f.id = fileId then
        { f with syncedToGirder := true, girderFileId := some girderFileId }
      else f) }

/-- The join of `Database.get_file_with_path_info` (database.py lines
281-301), applied to a file row. -/
def pathInfoOfRow (f : FileRow) (db : Store) : Option FileInfo := do
  let dt ← db.documentTypes.find? (fun dt => dt.id == f.documentTypeId)
  let v ← db.visits.find? (fun v => v.id == dt.visitId)
  let p ← db.patients.find? (fun p => p.id == v.patientId)
  let c ← db.centers.find? (fun c => c.id == p.centerId)
  some { id := f.id, filename := f.filename, filePath := f.filePath,
         fileSize := f.fileSize, syncedToGirder := f.syncedToGirder,
         girderFileId := f.girderFileId,
         centerCode := c.code, centerName := c.name,
         patientId := p.patientId, visitName := v.visitName,
         documentName := dt.documentName,
         centerGirderFolderId := c.girderFolderId,
         patientGirderFolderId := p.girderFolderId,
         visitGirderFolderId := v.girderFolderId,
         docGirderFolderId := dt.girderFolderId }

/-- `Database.get_file_with_path_info(file_id)` (database.py lines
281-301). -/
def get_file_with_path_info (fileId : Nat) (db : Store) : Option FileInfo := do
  let f ← db.files.find? (fun f => f.id == fileId)
  pathInfoOfRow f db

/-- `Database.get_document_folder_id` (database.py lines 303-344): the
first document-type row matching the four names, returning its
`girder_folder_id` only when it is set. -/
def get_document_folder_id (centerCode patientId visitName documentName : String)
    (db : Store) : Option String := do
  let dt ← db.documentTypes.find? (fun dt =>
    dt.documentName == documentName &&
      (match db.visits.find? (fun v => v.id == dt.visitId) with
       | some v =>
         v.visitName == visitName &&
           (match db.patients.find? (fun p => p.id == v.patientId) with
            | some p =>
              p.patientId == patientId &&
                (match db.centers.find? (fun c => c.id == p.centerId) with
                 | some c => c.code == centerCode
                 | none => false)
            | none => false)
       | none => false))
  dt.girderFolderId

/-- `get_unsynced_files(db)` (extract_sync.py lines 66-109): the joined
rows of all files with `synced_to_girder = 0`, in upload order. -/
def get_unsynced_files (db : Store) : List FileInfo :=
  (db.files.filter (fun f => !f.syncedToGirder)).filterMap
    (fun f => pathInfoOfRow f db)

/-! ## `sync_single_file` and `extract_and_sync_files` (extract_sync.py) -/

/-- The message of the `(success, message, girder_file_id)` triple
returned by `sync_single_file` (extract_sync.py lines 224-290), as
structured data:

* `fileNotFoundOnDisk` — line 253, `f"File not found on disk: {file_path}"`;
* `resolveFailed` — line 261, `str(e)` of the `ValueError` raised by
  `find_girder_folder_path` (so the message names the missing level);
* `uploadFailed` — line 283, `f"Failed to upload to Girder: {e}"`;
* `unexpectedError` — line 288, the generic `except Exception` branch
  (reached in the model when the uploaded file document has no `_id`, so
  `girder_file['_id']` raises `KeyError`);
* `syncedTo` — line 278, `f"Successfully synced to {folder_path}"`. -/
inductive SyncMsg where
  | fileNotFoundOnDisk (path : String)
  | resolveFailed (e : ResolveErr)
  | uploadFailed (e : UploadErr)
  | unexpectedError
  | syncedTo (folderPath : String)
deriving DecidableEq, Repr

/-- The local disk: the files present, each with its byte count. -/
structure Disk where
  entries : List (String × Nat)
deriving DecidableEq, Repr

/-- `Path.exists()` in the model. -/
def Disk.found (d : Disk) (p : String) : Bool :=
  (d.entries.find? (fun e => e.1 == p)).isSome

/-- `len(f.read())` in the model (0 for an absent path, which no caller
reaches because existence is checked first). -/
def Disk.sizeOf (d : Disk) (p : String) : Nat :=
  ((d.entries.find? (fun e => e.1 == p)).map (fun e => e.2)).getD 0

/-- A chunk-upload server environment: the responses the Girder server
gives for an upload into a given folder under a given file name. -/
def UploadServer : Type := String → String → Nat → ChunkResp

/-- The `(success, message, girder_file_id)` triple computed by
`sync_single_file` (extract_sync.py lines 224-290), which does not depend
on the database (the database is only written to).  Steps, in source
order: disk-existence check (line 252), `find_girder_folder_path` with its
`ValueError` caught (lines 258-263), read + `upload_file` with
`GirderError` caught (lines 267-285), and extraction of
`girder_file['_id']` (line 273; an absent `_id` raises `KeyError`, caught
by the outer `except Exception`, line 287). -/
def sync_single_file_outcome (fi : FileInfo) (rootFolderId : String)
    (st : RemoteState) (disk : Disk) (srv : UploadServer) :
    Bool × SyncMsg × Option String :=
  if !disk.found fi.filePath then
    (false, .fileNotFoundOnDisk fi.filePath, none)
  else
    match find_girder_folder_path fi rootFolderId st with
    | .error e => (false, .resolveFailed e, none)
    | .ok (girderFolderId, folderPath) =>
      let out := uploadFile (disk.sizeOf fi.filePath) (srv girderFolderId fi.filename)
      match out.result with
      | .error e => (false, .uploadFailed e, none)
      | .ok doc =>
        match doc.idField with
        | none => (false, .unexpectedError, none)
        | some gid => (true, .syncedTo folderPath, some gid)

/-- `sync_single_file(file_info, root_folder_id, db)` (extract_sync.py
lines 224-290): the triple above, plus the database effect —
`db.mark_file_synced(file_id, girder_file_id)` (line 276) exactly on the
success path, otherwise the database is untouched. -/
def sync_single_file (fi : FileInfo) (rootFolderId : String)
    (st : RemoteState) (disk : Disk) (srv : UploadServer) (db : Store) :
    (Bool × SyncMsg × Option String) × Store :=
  let r := sync_single_file_outcome fi rootFolderId st disk srv
  (r,
   match r with
   | (true, _, some gid) => mark_file_synced fi.id gid db
   | _ => db)

/-- One entry of the `details` list built by `extract_and_sync_files`
(extract_sync.py lines 359-365). -/
structure SyncDetail where
  fileId : Nat
  filename : String
  success : Bool
  message : SyncMsg
  girderFileId : Option String
deriving DecidableEq, Repr

/-- The summary dict returned by `extract_and_sync_files` (extract_sync.py
lines 306-312). -/
structure SyncResults where
  totalFiles : Nat
  synced : Nat
  failed : Nat
  details : List SyncDetail
deriving DecidableEq, Repr

/-- The detail entry recorded for one file (extract_sync.py lines
359-365). -/
def mkDetail (fi : FileInfo) (r : Bool × SyncMsg × Option String) :
    SyncDetail :=
  { fileId := fi.id, filename := fi.filename, success := r.1,
    message := r.2.1, girderFileId := r.2.2 }

/-- The loop body of `extract_and_sync_files` (extract_sync.py lines
344-365): sync one file, bump `synced` or `failed`, append the detail. -/
def syncStep (rootFolderId : String) (st : RemoteState) (disk : Disk)
    (srv : UploadServer) (acc : SyncResults × Store) (fi : FileInfo) :
    SyncResults × Store :=
  let (res, db) := acc
  let (r, db') := sync_single_file fi rootFolderId st disk srv db
  ({ totalFiles := res.totalFiles,
     synced := res.synced + (if r.1 then 1 else 0),
     failed := res.failed + (if r.1 then 0 else 1),
     details := res.details ++ [mkDetail fi r] }, db')

/-- `extract_and_sync_files(root_folder_id)` (extract_sync.py lines
293-383): fetch the unsynced files once, then sync them one by one,
aggregating the summary.  (The early return for an empty list, lines
324-331, yields the same zero summary as the empty fold.) -/
def extract_and_sync_files (rootFolderId : String) (st : RemoteState)
    (disk : Disk) (srv : UploadServer) (db : Store) : SyncResults × Store :=
  let unsynced := get_unsynced_files db
  unsynced.foldl (syncStep rootFolderId st disk srv)
    ({ totalFiles := unsynced.length, synced := 0, failed := 0, details := [] }, db)

/-! ## Embedding of `src/scripts/create_girder_schema.py` -/

/-- A visit with its document types, as returned by
`Database.get_full_structure` (database.py lines 165-225). -/
structure VisitTree where
  row : VisitRow
  documentTypes : List DocumentTypeRow
deriving DecidableEq, Repr

/-- A patient with its visits. -/
structure PatientTree where
  row : PatientRow
  visits : List VisitTree
deriving DecidableEq, Repr

/-- A center with its patients. -/
structure CenterTree where
  row : CenterRow
  patients : List PatientTree
deriving DecidableEq, Repr

/-- `Database.get_full_structure()` (database.py lines 165-225): the
nested centers → patients → visits → document-types structure.  (The SQL
`ORDER BY` clauses are not modelled — rows keep their stored order — and
the per-document file lists, unused by the schema script, are omitted.) -/
def get_full_structure (db : Store) : List CenterTree :=
  db.centers.map (fun c =>
    { row := c,
      patients := (db.patients.filter (fun p => p.centerId == c.id)).map (fun p =>
        { row := p,
          visits := (db.visits.filter (fun v => v.patientId == p.id)).map (fun v =>
            { row := v,
              documentTypes := db.documentTypes.filter (fun dt => dt.visitId == v.id) }) }) })

/-- `UPDATE centers SET girder_folder_id = ? WHERE id = ?`
(create_girder_schema.py lines 122-125). -/
def updateCenterFolderId (centerId : Nat) (gid : String) (db : Store) : Store :=
  { db with centers := db.centers.map (fun c =>
      if c.id = centerId then { c with girderFolderId := some gid } else c) }

/-- `UPDATE patients SET girder_folder_id = ? WHERE id = ?`
(create_girder_schema.py lines 155-158). -/
def updatePatientFolderId (patientId : Nat) (gid : String) (db : Store) : Store :=
  { db with patients := db.patients.map (fun p =>
      if p.id = patientId then { p with girderFolderId := some gid } else p) }

/-- `UPDATE visits SET girder_folder_id = ? WHERE id = ?`
(create_girder_schema.py lines 189-192). -/
def updateVisitFolderId (visitId : Nat) (gid : String) (db : Store) : Store :=
  { db with visits := db.visits.map (fun v =>
      if v.id = visitId then { v with girderFolderId := some gid } else v) }

/-- `UPDATE document_types SET girder_folder_id = ? WHERE id = ?`
(create_girder_schema.py lines 223-226). -/
def updateDocFolderId (docId : Nat) (gid : String) (db : Store) : Store :=
  { db with documentTypes := db.documentTypes.map (fun dt =>
      if dt.id = docId then { dt with girderFolderId := some gid } else dt) }

/-- Step 6 of `create_girder_schema` (create_girder_schema.py lines
202-233): one document type under a visit folder — `get_or_create_folder`,
then save the id to the database only when none was stored
(`if not doc_type.get('girder_folder_id')`).  Remote calls cannot fail in
the model, so the `except GirderError: continue` branch is dead. -/
def processDocType (visitGirderId : String) (acc : Store × RemoteState)
    (dt : DocumentTypeRow) : Store × RemoteState :=
  let (db, st) := acc
  let r := get_or_create_folder dt.documentName visitGirderId true st
  let db := if dt.girderFolderId.isNone then updateDocFolderId dt.id r.1.fid db else db
  (db, r.2)

/-- Step 5 (create_girder_schema.py lines 168-233): one visit under a
patient folder, then its document types. -/
def processVisit (patientGirderId : String) (acc : Store × RemoteState)
    (vt : VisitTree) : Store × RemoteState :=
  let (db, st) := acc
  let r := get_or_create_folder vt.row.visitName patientGirderId true st
  let db := if vt.row.girderFolderId.isNone then updateVisitFolderId vt.row.id r.1.fid db else db
  vt.documentTypes.foldl (processDocType r.1.fid) (db, r.2)

/-- Step 4 (create_girder_schema.py lines 135-233): one patient under a
center folder, then its visits. -/
def processPatient (centerGirderId : String) (acc : Store × RemoteState)
    (pt : PatientTree) : Store × RemoteState :=
  let (db, st) := acc
  let r := get_or_create_folder pt.row.patientId centerGirderId true st
  let db := if pt.row.girderFolderId.isNone then updatePatientFolderId pt.row.id r.1.fid db else db
  pt.visits.foldl (processVisit r.1.fid) (db, r.2)

/-- Step 3 (create_girder_schema.py lines 99-233): one center under the
root folder, then its patients. -/
def processCenter (rootFolderId : String) (acc : Store × RemoteState)
    (ct : CenterTree) : Store × RemoteState :=
  let (db, st) := acc
  let r := get_or_create_folder ("CHU_" ++ ct.row.code) rootFolderId true st
  let db := if ct.row.girderFolderId.isNone then updateCenterFolderId ct.row.id r.1.fid db else db
  ct.patients.foldl (processPatient r.1.fid) (db, r.2)

/-- `create_girder_schema(root_folder_id)` (create_girder_schema.py lines
76-237): read the structure once, then walk it, get-or-creating each
folder and write-through caching each new folder id. -/
def create_girder_schema (rootFolderId : String) (db : Store)
    (st : RemoteState) : Store × RemoteState :=
  (get_full_structure db).foldl (processCenter rootFolderId) (db, st)

/-! ## Embedding of the `sync_to_girder` endpoint (app.py lines 500-588) -/

/-- The responses of `POST /api/sync-to-girder`, as structured data:

* `fileNotFound` — 404 "File not found" (app.py line 517);
* `alreadySynced` — the early return of lines 521-526, carrying
  `file_info.get('girder_file_id')`;
* `structureNotFoundInDb` — 404, `get_document_folder_id` found nothing
  (lines 544-548);
* `folderMissingInGirder` — 404, the id from the database no longer
  resolves remotely (lines 551-557);
* `diskFileNotFound` — 404 "File not found on disk" (line 561);
* `uploadFailedErr` — 500 "Failed to upload to Girder" (line 582);
* `unexpectedErr` — 500, the generic handler (line 587; reached in the
  model when the uploaded document has no `_id`);
* `synced` — lines 574-579, carrying the new Girder file id and the
  folder-path string. -/
inductive ApiResponse where
  | fileNotFound
  | alreadySynced (girderFileId : Option String)
  | structureNotFoundInDb
  | folderMissingInGirder
  | diskFileNotFound
  | uploadFailedErr (e : UploadErr)
  | unexpectedErr
  | synced (girderFileId : String) (folderPath : String)
deriving DecidableEq, Repr

/-- `sync_to_girder(file_id)` (app.py lines 500-588).  Returns the
response, the database after the call, and the remote requests performed
(folder verification, upload initialisation, chunk posts). -/
def sync_to_girder (fileId : Nat) (st : RemoteState) (disk : Disk)
    (srv : UploadServer) (db : Store) :
    ApiResponse × Store × List RemoteCall :=
  match get_file_with_path_info fileId db with
  | none => (.fileNotFound, db, [])
  | some fi =>
    if fi.syncedToGirder then
      (.alreadySynced fi.girderFileId, db, [])
    else
      match get_document_folder_id fi.centerCode fi.patientId fi.visitName
          fi.documentName db with
      | none => (.structureNotFoundInDb, db, [])
      | some docFolderId =>
        match get_folder_by_id docFolderId st with
        | .error _ => (.folderMissingInGirder, db, [.getFolder docFolderId])
        | .ok _ =>
          if !disk.found fi.filePath then
            (.diskFileNotFound, db, [.getFolder docFolderId])
          else
            let n := disk.sizeOf fi.filePath
            let out := uploadFile n (srv docFolderId fi.filename)
            let calls := RemoteCall.getFolder docFolderId ::
              RemoteCall.initUpload docFolderId fi.filename n ::
              out.calls.map RemoteCall.chunkPost
            match out.result with
            | .error e => (.uploadFailedErr e, db, calls)
            | .ok doc =>
              match doc.idField with
              | none => (.unexpectedErr, db, calls)
              | some gid =>
                (.synced gid (folderPathString fi),
                 mark_file_synced fileId gid db, calls)

/-! ## Helper lemmas: the chunk loop under a progress-reporting server -/

/-- The value of the `offset` variable after `k` chunk responses from a
server that reports cumulative progress (`received = offset + len(chunk)`,
which is also what the defensive fallback of girder_client.py line 363
computes). -/
def expOffset (n : Nat) : Nat → Nat
  | 0 => 0
  | k + 1 => expOffset n k + min CHUNK_SIZE (n - expOffset n k)

/-- A chunk server whose `received` field reports the cumulative byte
count actually transferred (normal Girder behaviour; the same offsets
arise when `received` is absent and the fallback advances by the chunk
length). -/
def Conforming (n : Nat) (server : Nat → ChunkResp) : Prop :=
  ∀ k, (server k).received = some (expOffset n (k + 1))

/-- `ceil((n - offset) / CHUNK_SIZE)`: the chunk requests still needed
from a given offset. -/
def chunksFrom (n offset : Nat) : Nat :=
  (n - offset + CHUNK_SIZE - 1) / CHUNK_SIZE

lemma CHUNK_SIZE_eq : CHUNK_SIZE = 10485760 := by norm_num [CHUNK_SIZE]

lemma expOffset_le (n : Nat) : ∀ k, expOffset n k ≤ n := by
  intro k
  induction k with
  | zero => exact Nat.zero_le n
  | succ k ih =>
    show expOffset n k + min CHUNK_SIZE (n - expOffset n k) ≤ n
    omega

lemma expOffset_le_succ (n k : Nat) : expOffset n k ≤ expOffset n (k + 1) :=
  Nat.le_add_right _ _

lemma expOffset_mono (n : Nat) {a b : Nat} (h : a ≤ b) :
    expOffset n a ≤ expOffset n b := by
  induction b with
  | zero => simp [Nat.le_zero.mp h]
  | succ b ih =>
    rcases Nat.lt_or_ge a (b + 1) with hb | hb
    · exact le_trans (ih (Nat.lt_succ_iff.mp hb)) (expOffset_le_succ n b)
    · have : a = b + 1 := le_antisymm h hb
      simp [this]

set_option maxHeartbeats 1000000

/-- Under a conforming server the chunk loop performs exactly
`chunksFrom n offset` requests, the requests are the successive
`CHUNK_SIZE`-bounded slices of the payload, the offsets follow
`expOffset`, the final offset is `n`, and the loop's file document is the
final response exactly when that response carries an `_id`. -/
lemma uploadChunkLoop_conforming (n : Nat) (server : Nat → ChunkResp)
    (hC : Conforming n server) :
    ∀ fuel k offset, offset = expOffset n k → offset < n → n ≤ offset + fuel →
    uploadChunkLoop server n fuel offset offset k =
      ((if (server (k + chunksFrom n offset - 1)).idField.isSome
          then some (server (k + chunksFrom n offset - 1)) else none),
       (List.range (chunksFrom n offset)).map (fun i =>
         { offsetParam := expOffset n (k + i), sliceStart := expOffset n (k + i),
           len := min CHUNK_SIZE (n - expOffset n (k + i)) }),
       (List.range (chunksFrom n offset)).map (fun i => expOffset n (k + i + 1)),
       n) := by
  intro fuel
  induction fuel with
  | zero => intro k offset h1 h2 h3; omega
  | succ fuel ih =>
    intro k offset h1 h2 h3
    have hCpos : 0 < CHUNK_SIZE := by rw [CHUNK_SIZE_eq]; omega
    have hnext : expOffset n (k + 1) = offset + min CHUNK_SIZE (n - offset) := by
      rw [h1]; rfl
    have hnextle : expOffset n (k + 1) ≤ n := expOffset_le n (k + 1)
    rw [uploadChunkLoop]
    rw [if_pos h2]
    have hlen : min (min CHUNK_SIZE (n - offset)) (n - offset) =
        min CHUNK_SIZE (n - offset) := by omega
    have hlenne : ¬ (min CHUNK_SIZE (n - offset) = 0) := by omega
    have hrecv : (server k).received = some (expOffset n (k + 1)) := hC k
    simp only [hlen, hlenne, if_false, hrecv, Option.getD_some]
    by_cases hfin : n ≤ expOffset n (k + 1)
    · have hoff : expOffset n (k + 1) = n := le_antisymm hnextle hfin
      have hm : chunksFrom n offset = 1 := by
        rw [chunksFrom, CHUNK_SIZE_eq]
        rw [CHUNK_SIZE_eq] at hnext
        omega
      rw [if_pos hfin, hm]
      cases hid : (server k).idField <;> cases hsz : (server k).sizeField <;>
        simp [List.range_succ, List.range_zero, hid, hsz, hoff, ← h1]
    · rw [if_neg hfin]
      have hlt : expOffset n (k + 1) < n := Nat.lt_of_not_le hfin
      have hcs : min CHUNK_SIZE (n - offset) = CHUNK_SIZE := by omega
      have hnext' : expOffset n (k + 1) = offset + CHUNK_SIZE := by
        rw [hnext, hcs]
      have hrec := ih (k + 1) (expOffset n (k + 1)) rfl hlt (by omega)
      have hpos : offset + min CHUNK_SIZE (n - offset) = expOffset n (k + 1) := by
        omega
      rw [hpos, hrec]
      have hm : chunksFrom n offset = chunksFrom n (expOffset n (k + 1)) + 1 := by
        rw [chunksFrom, chunksFrom, CHUNK_SIZE_eq]
        rw [CHUNK_SIZE_eq] at hnext'
        omega
      rw [hm]
      simp only [Prod.mk.injEq]
      refine ⟨?_, ?_, ?_, trivial⟩
      · rw [show k + 1 + chunksFrom n (expOffset n (k + 1)) - 1 =
            k + (chunksFrom n (expOffset n (k + 1)) + 1) - 1 from by omega]
      · rw [List.range_succ_eq_map, List.map_cons, List.map_map]
        refine congrArg₂ _ ?_ ?_
        · rw [show k + 0 = k from rfl, ← h1]
        · exact (List.map_congr_left (fun a _ => by
            simp only [Function.comp_apply]
            rw [show k + Nat.succ a = k + 1 + a from by omega])).symm
      · rw [List.range_succ_eq_map, List.map_cons, List.map_map]
        refine congrArg₂ _ ?_ ?_
        · rw [show k + 0 + 1 = k + 1 from by omega]
        · exact (List.map_congr_left (fun a _ => by
            simp only [Function.comp_apply]
            rw [show k + Nat.succ a = k + 1 + a from by omega])).symm

/-- `upload_file` on a payload larger than one chunk, against a conforming
server: the full characterisation of the outcome. -/
lemma uploadFile_conforming (n : Nat) (server : Nat → ChunkResp)
    (hn : CHUNK_SIZE < n) (hC : Conforming n server) :
    uploadFile n server =
      { result := if (server (chunksFrom n 0 - 1)).idField.isSome
            then .ok (server (chunksFrom n 0 - 1))
            else .error (.girderIncomplete n n),
        calls := (List.range (chunksFrom n 0)).map (fun i =>
          { offsetParam := expOffset n i, sliceStart := expOffset n i,
            len := min CHUNK_SIZE (n - expOffset n i) }),
        offsets := (List.range (chunksFrom n 0)).map (fun i => expOffset n (i + 1)),
        warned := if (server (chunksFrom n 0 - 1)).idField.isSome
            then (if (server (chunksFrom n 0 - 1)).sizeField = some n then false else true)
            else false } := by
  have hloop := uploadChunkLoop_conforming n server hC (n + 1) 0 0 rfl
    (by omega) (by omega)
  rw [uploadFile, if_neg (by omega)]
  simp only [Nat.zero_add] at hloop
  cases hid : (server (chunksFrom n 0 - 1)).idField.isSome
  · rw [hloop]; simp [hid]
  · rw [hloop]; simp [hid]

/-! ## Claims C2, C3, C6, C7: the chunked uploader -/

/-- C2: for every payload larger than `CHUNK_SIZE` uploaded against a
server that reports cumulative progress and returns the file id on the
final chunk, `upload_file` sends exactly `ceil(size / CHUNK_SIZE)` chunk
requests, the requests are the successive `CHUNK_SIZE`-bounded slices of
the payload, the returned file document is the final chunk's response
(hence carries the remote file id), and the successive `offset` values
are monotonically non-decreasing. -/
theorem C2_upload_large_chunking (n : Nat) (server : Nat → ChunkResp)
    (fid : String) (hn : CHUNK_SIZE < n) (hC : Conforming n server)
    (hid : (server (chunksFrom n 0 - 1)).idField = some fid) :
    (uploadFile n server).result = .ok (server (chunksFrom n 0 - 1))
    ∧ (server (chunksFrom n 0 - 1)).idField = some fid
    ∧ (uploadFile n server).calls.length = (n + CHUNK_SIZE - 1) / CHUNK_SIZE
    ∧ (uploadFile n server).calls = (List.range (chunksFrom n 0)).map (fun i =>
        { offsetParam := expOffset n i, sliceStart := expOffset n i,
          len := min CHUNK_SIZE (n - expOffset n i) })
    ∧ (uploadFile n server).offsets =
        (List.range (chunksFrom n 0)).map (fun i => expOffset n (i + 1))
    ∧ List.Pairwise (· ≤ ·) (uploadFile n server).offsets := by
  have h := uploadFile_conforming n server hn hC
  have hiss : (server (chunksFrom n 0 - 1)).idField.isSome = true := by
    rw [hid]; rfl
  refine ⟨?_, hid, ?_, ?_, ?_, ?_⟩
  · rw [h]; simp [hiss]
  · rw [h]; simp [chunksFrom]
  · rw [h]
  · rw [h]
  · rw [h]
    refine List.pairwise_map.mpr ?_
    exact (List.pairwise_lt_range _).imp
      (fun hab => expOffset_mono n (by omega))

/-- A concrete well-behaved chunk server for an `n`-byte payload: it
reports cumulative progress and carries the file document fields on the
final chunk response. -/
def mkConformingServer (n : Nat) : Nat → ChunkResp := fun k =>
  { received := some (expOffset n (k + 1)),
    idField := if n ≤ expOffset n (k + 1) then some "file0" else none,
    sizeField := if n ≤ expOffset n (k + 1) then some n else none }

/-- Witness for C2: a 25 MiB payload is sent as exactly three chunks of
10 MiB, 10 MiB and 5 MiB, the offsets are non-decreasing, and the result
is the final chunk's response. -/
theorem C2_upload_large_chunking_witness :
    CHUNK_SIZE < 25 * 1024 * 1024
    ∧ (uploadFile (25 * 1024 * 1024) (mkConformingServer (25 * 1024 * 1024))).calls =
        [{ offsetParam := 0, sliceStart := 0, len := 10485760 },
         { offsetParam := 10485760, sliceStart := 10485760, len := 10485760 },
         { offsetParam := 20971520, sliceStart := 20971520, len := 5242880 }]
    ∧ (uploadFile (25 * 1024 * 1024) (mkConformingServer (25 * 1024 * 1024))).offsets =
        [10485760, 20971520, 26214400]
    ∧ (uploadFile (25 * 1024 * 1024) (mkConformingServer (25 * 1024 * 1024))).result =
        .ok (mkConformingServer (25 * 1024 * 1024) 2) := by
  have h := C2_upload_large_chunking (25 * 1024 * 1024)
    (mkConformingServer (25 * 1024 * 1024)) "file0"
    (by rw [CHUNK_SIZE_eq]; omega) (fun k => rfl) (by decide)
  refine ⟨by rw [CHUNK_SIZE_eq]; omega, ?_, ?_, ?_⟩
  · exact h.2.2.2.1.trans (by decide)
  · exact h.2.2.2.2.1.trans (by decide)
  · exact h.1.trans (by rw [show chunksFrom (25 * 1024 * 1024) 0 - 1 = 2 from by decide])

/-- C3: for every multi-chunk upload against a progress-reporting server
whose final chunk response carries no `_id` (so no terminal file document
is ever obtained, even after the bounded wait-and-retry, which re-examines
the same response), `upload_file` raises the incomplete-transfer
`GirderError` carrying the last-known offset and the expected total
size. -/
theorem C3_incomplete_transfer (n : Nat) (server : Nat → ChunkResp)
    (hn : CHUNK_SIZE < n) (hC : Conforming n server)
    (hid : (server (chunksFrom n 0 - 1)).idField = none) :
    (uploadFile n server).result = .error (.girderIncomplete n n) := by
  have h := uploadFile_conforming n server hn hC
  rw [h]
  simp [hid]

/-- A concrete progress-reporting server that never returns a file
document. -/
def mkIncompleteServer (n : Nat) : Nat → ChunkResp := fun k =>
  { received := some (expOffset n (k + 1)), idField := none, sizeField := none }

/-- Witness for C3: a payload one byte over the chunk size against a
server that never produces the file document fails with the
incomplete-transfer error reporting offset and expected size. -/
theorem C3_incomplete_transfer_witness :
    CHUNK_SIZE < CHUNK_SIZE + 1
    ∧ (uploadFile (CHUNK_SIZE + 1) (mkIncompleteServer (CHUNK_SIZE + 1))).result =
        .error (.girderIncomplete (CHUNK_SIZE + 1) (CHUNK_SIZE + 1)) := by
  exact ⟨Nat.lt_succ_self _,
    C3_incomplete_transfer (CHUNK_SIZE + 1) (mkIncompleteServer (CHUNK_SIZE + 1))
      (Nat.lt_succ_self _) (fun k => rfl) rfl⟩

/-- C6: for every payload of at most `CHUNK_SIZE` bytes, `upload_file`
makes exactly one chunk request, at offset 0, carrying the entire
payload, and returns the server's response; when that response carries a
file id and a size equal to the payload length, so does the returned
document. -/
theorem C6_upload_small_single_chunk (n : Nat) (server : Nat → ChunkResp)
    (fid : String) (hn : n ≤ CHUNK_SIZE) (hid : (server 0).idField = some fid)
    (hsz : (server 0).sizeField = some n) :
    (uploadFile n server).calls = [{ offsetParam := 0, sliceStart := 0, len := n }]
    ∧ ∃ doc, (uploadFile n server).result = .ok doc
        ∧ doc.idField = some fid ∧ doc.sizeField = some n := by
  rw [uploadFile, if_pos hn]
  exact ⟨rfl, server 0, rfl, hid, hsz⟩

/-- A concrete single-chunk server answering with a complete file
document of size 5. -/
def smallOkServer : Nat → ChunkResp := fun _ =>
  { received := none, idField := some "file5", sizeField := some 5 }

/-- Witness for C6: a 5-byte payload goes up in a single chunk at offset
0 and yields a document with the id and size 5. -/
theorem C6_upload_small_single_chunk_witness :
    (5 ≤ CHUNK_SIZE)
    ∧ ((uploadFile 5 smallOkServer).calls =
        [{ offsetParam := 0, sliceStart := 0, len := 5 }]
      ∧ ∃ doc, (uploadFile 5 smallOkServer).result = .ok doc
          ∧ doc.idField = some "file5" ∧ doc.sizeField = some 5) := by
  exact ⟨by rw [CHUNK_SIZE_eq]; omega,
    C6_upload_small_single_chunk 5 smallOkServer "file5"
      (by rw [CHUNK_SIZE_eq]; omega) rfl rfl⟩

/-- A single-chunk server whose response reports a size different from
the payload length. -/
def mismatchSmallServer : Nat → ChunkResp := fun _ =>
  { received := none, idField := some "file7", sizeField := some 7 }

/-- Counterexample to C7 as stated: this 5-byte upload reaches a terminal
result whose remote-reported size (7) differs from the expected total
size (5), and the upload returns successfully — but no size-mismatch
warning is logged, because the single-chunk branch of `upload_file`
(girder_client.py lines 305-318) performs no size verification at all;
the warning of line 400 exists only on the multi-chunk path. -/
theorem C7_counterexample :
    (uploadFile 5 mismatchSmallServer).result = .ok (mismatchSmallServer 0)
    ∧ (mismatchSmallServer 0).sizeField = some 7
    ∧ (7 : Nat) ≠ 5
    ∧ (uploadFile 5 mismatchSmallServer).warned = false := by
  refine ⟨?_, rfl, by decide, ?_⟩
  · rw [uploadFile, if_pos (by rw [CHUNK_SIZE_eq]; omega)]
  · rw [uploadFile, if_pos (by rw [CHUNK_SIZE_eq]; omega)]

/-- C7 (amended): a size mismatch in a terminal upload result is never
raised as an error.  The single-chunk branch returns the server's
response unconditionally, with no size check and no warning; the
multi-chunk branch returns successfully whenever a terminal document was
obtained and logs the size-mismatch warning exactly when the document's
`size` differs from the expected total; and the only error `upload_file`
can raise is the incomplete-transfer error — never a size mismatch. -/
theorem C7_soft_size_verification :
    (∀ n server, n ≤ CHUNK_SIZE →
      (uploadFile n server).result = .ok (server 0)
        ∧ (uploadFile n server).warned = false)
    ∧ (∀ n server doc, CHUNK_SIZE < n → (uploadFile n server).result = .ok doc →
      ((uploadFile n server).warned = true ↔ doc.sizeField ≠ some n))
    ∧ (∀ n server e, (uploadFile n server).result = .error e →
      ∃ lastOffset, e = .girderIncomplete lastOffset n) := by
  refine ⟨?_, ?_, ?_⟩
  · intro n server hn
    rw [uploadFile, if_pos hn]
    exact ⟨rfl, rfl⟩
  · intro n server doc hn hok
    rw [uploadFile, if_neg (by omega)] at hok ⊢
    rcases hU : uploadChunkLoop server n (n + 1) 0 0 0 with ⟨fr, cs, os, fo⟩
    rw [hU] at hok
    cases fr with
    | none => simp at hok
    | some d =>
      simp only [Except.ok.injEq] at hok
      subst hok
      by_cases hsz : d.sizeField = some n <;> simp [hsz]
  · intro n server e herr
    by_cases hn : n ≤ CHUNK_SIZE
    · rw [uploadFile, if_pos hn] at herr; simp at herr
    · rw [uploadFile, if_neg hn] at herr
      rcases hU : uploadChunkLoop server n (n + 1) 0 0 0 with ⟨fr, cs, os, fo⟩
      rw [hU] at herr
      cases fr with
      | none =>
        simp only [Except.error.injEq] at herr
        exact ⟨_, herr.symm⟩
      | some d => simp at herr

/-- A progress-reporting multi-chunk server whose terminal document
reports the wrong size (`n + 1` instead of `n`). -/
def mkWrongSizeServer (n : Nat) : Nat → ChunkResp := fun k =>
  { received := some (expOffset n (k + 1)), idField := some "fileW",
    sizeField := some (n + 1) }

/-- Witness for the amended C7: a 5-byte single-chunk upload returns
success with no warning; a multi-chunk upload whose terminal document
reports the wrong size returns success and logs the warning; and the
incomplete upload of the C3 witness raises only the incomplete-transfer
error. -/
theorem C7_soft_size_verification_witness :
    ((uploadFile 5 mismatchSmallServer).result = .ok (mismatchSmallServer 0)
      ∧ (uploadFile 5 mismatchSmallServer).warned = false)
    ∧ ((uploadFile (CHUNK_SIZE + 1) (mkWrongSizeServer (CHUNK_SIZE + 1))).warned = true ↔
        (mkWrongSizeServer (CHUNK_SIZE + 1) 1).sizeField ≠ some (CHUNK_SIZE + 1))
    ∧ (∃ lastOffset, UploadErr.girderIncomplete (CHUNK_SIZE + 1) (CHUNK_SIZE + 1) =
        .girderIncomplete lastOffset (CHUNK_SIZE + 1)) := by
  have hconf := uploadFile_conforming (CHUNK_SIZE + 1) (mkWrongSizeServer (CHUNK_SIZE + 1))
    (Nat.lt_succ_self _) (fun k => rfl)
  have hok : (uploadFile (CHUNK_SIZE + 1) (mkWrongSizeServer (CHUNK_SIZE + 1))).result =
      .ok (mkWrongSizeServer (CHUNK_SIZE + 1) 1) := by
    rw [hconf]
    rw [show chunksFrom (CHUNK_SIZE + 1) 0 - 1 = 1 from by decide]
    simp [mkWrongSizeServer]
  have hincompl := uploadFile_conforming (CHUNK_SIZE + 1) (mkIncompleteServer (CHUNK_SIZE + 1))
    (Nat.lt_succ_self _) (fun k => rfl)
  have herr : (uploadFile (CHUNK_SIZE + 1) (mkIncompleteServer (CHUNK_SIZE + 1))).result =
      .error (.girderIncomplete (CHUNK_SIZE + 1) (CHUNK_SIZE + 1)) := by
    rw [hincompl]
    rw [show chunksFrom (CHUNK_SIZE + 1) 0 - 1 = 1 from by decide]
    simp [mkIncompleteServer]
  refine ⟨C7_soft_size_verification.1 5 mismatchSmallServer (by rw [CHUNK_SIZE_eq]; omega),
    C7_soft_size_verification.2.1 (CHUNK_SIZE + 1) (mkWrongSizeServer (CHUNK_SIZE + 1))
      (mkWrongSizeServer (CHUNK_SIZE + 1) 1) (Nat.lt_succ_self _) hok,
    C7_soft_size_verification.2.2 (CHUNK_SIZE + 1) (mkIncompleteServer (CHUNK_SIZE + 1))
      (.girderIncomplete (CHUNK_SIZE + 1) (CHUNK_SIZE + 1)) herr⟩

/-! ## Claims C1 and C4: folder-path resolution -/

/-- A resolution failure only arises from an empty find-by-name at some
level, and the error names that level (and its parent level's name). -/
def errNamesMissingLevel (e : ResolveErr) (fi : FileInfo) (st : RemoteState) :
    Prop :=
  match e with
  | .centerNotFound nm =>
    nm = centerGirderName fi ∧ ∃ parent, find_folder nm parent st = none
  | .patientNotFound nm c =>
    nm = fi.patientId ∧ c = centerGirderName fi ∧
      ∃ parent, find_folder nm parent st = none
  | .visitNotFound nm p =>
    nm = fi.visitName ∧ p = fi.patientId ∧
      ∃ parent, find_folder nm parent st = none
  | .documentNotFound nm v =>
    nm = fi.documentName ∧ v = fi.visitName ∧
      ∃ parent, find_folder nm parent st = none

lemma resolveLevel_eq_none {cached : Option String} {name parentId : String}
    {st : RemoteState} (h : resolveLevel cached name parentId st = none) :
    find_folder name parentId st = none := by
  cases hf : find_folder name parentId st with
  | none => rfl
  | some f =>
    exfalso
    rcases cached with _ | cid
    · simp only [resolveLevel, hf] at h
      exact Option.noConfusion h
    · simp only [resolveLevel] at h
      cases hg : get_folder_by_id cid st <;> simp only [hg, hf] at h <;>
        exact Option.noConfusion h

lemma resolveLevelCalls_no_create (cached : Option String)
    (name parentId : String) (st : RemoteState) :
    ∀ c ∈ resolveLevelCalls cached name parentId st, c.isCreate = false := by
  unfold resolveLevelCalls
  rcases cached with _ | cid
  · simp [RemoteCall.isCreate]
  · cases hg : get_folder_by_id cid st <;> simp [hg, RemoteCall.isCreate]

/-- C1 (amended): when a level's folder is not found remotely the
resolver does not create it — `find_girder_folder_path` fails immediately
with the `ValueError` naming that level, and its remote traffic contains
no folder-creation request.  Folder creation under a parent is performed
only by `get_or_create_folder` (used by the schema-creation script),
which returns an existing folder unchanged and creates the folder under
the parent exactly when the find-by-name returns no match. -/
theorem C1_resolver_fails_without_creating :
    (∀ name parentId st, find_folder name parentId st = none →
      (get_or_create_folder name parentId true st).1.name = name
        ∧ (get_or_create_folder name parentId true st).1.parentId = parentId
        ∧ (get_or_create_folder name parentId true st).1 ∈
            (get_or_create_folder name parentId true st).2.folders)
    ∧ (∀ name parentId st f, find_folder name parentId st = some f →
      get_or_create_folder name parentId true st = (f, st))
    ∧ (∀ fi rootFolderId st, ∀ c ∈ find_girder_folder_path_calls fi rootFolderId st,
      c.isCreate = false)
    ∧ (∀ fi rootFolderId st e, find_girder_folder_path fi rootFolderId st = .error e →
      errNamesMissingLevel e fi st) := by
  refine ⟨?_, ?_, ?_, ?_⟩
  · intro name parentId st h
    rw [get_or_create_folder, h]
    exact ⟨rfl, rfl, by simp [create_folder]⟩
  · intro name parentId st f h
    rw [get_or_create_folder, h]
  · intro fi rootFolderId st c hc
    unfold find_girder_folder_path_calls at hc
    rcases h1 : resolveLevel fi.centerGirderFolderId (centerGirderName fi) rootFolderId st
      with _ | cId <;> simp only [h1] at hc
    · exact resolveLevelCalls_no_create _ _ _ _ c hc
    · rcases h2 : resolveLevel fi.patientGirderFolderId fi.patientId cId st
        with _ | pId <;> simp only [h2] at hc
      · rcases List.mem_append.mp hc with h | h <;>
          exact resolveLevelCalls_no_create _ _ _ _ c h
      · rcases h3 : resolveLevel fi.visitGirderFolderId fi.visitName pId st
          with _ | vId <;> simp only [h3] at hc
        · rcases List.mem_append.mp hc with h | h
          · rcases List.mem_append.mp h with h' | h' <;>
              exact resolveLevelCalls_no_create _ _ _ _ c h'
          · exact resolveLevelCalls_no_create _ _ _ _ c h
        · rcases List.mem_append.mp hc with h | h
          · rcases List.mem_append.mp h with h' | h'
            · rcases List.mem_append.mp h' with h'' | h'' <;>
                exact resolveLevelCalls_no_create _ _ _ _ c h''
            · exact resolveLevelCalls_no_create _ _ _ _ c h'
          · exact resolveLevelCalls_no_create _ _ _ _ c h
  · intro fi rootFolderId st e h
    unfold find_girder_folder_path at h
    rcases h1 : resolveLevel fi.centerGirderFolderId (centerGirderName fi) rootFolderId st
      with _ | cId <;> simp only [h1] at h
    · injection h with h'
      subst h'
      exact ⟨rfl, rootFolderId, resolveLevel_eq_none h1⟩
    · rcases h2 : resolveLevel fi.patientGirderFolderId fi.patientId cId st
        with _ | pId <;> simp only [h2] at h
      · injection h with h'
        subst h'
        exact ⟨rfl, rfl, cId, resolveLevel_eq_none h2⟩
      · rcases h3 : resolveLevel fi.visitGirderFolderId fi.visitName pId st
          with _ | vId <;> simp only [h3] at h
        · injection h with h'
          subst h'
          exact ⟨rfl, rfl, pId, resolveLevel_eq_none h3⟩
        · rcases h4 : resolveLevel fi.docGirderFolderId fi.documentName vId st
            with _ | dId <;> simp only [h4] at h
          · injection h with h'
            subst h'
            exact ⟨rfl, rfl, vId, resolveLevel_eq_none h4⟩
          · exact Except.noConfusion h

/-- A remote state with the root and the center folder, but no patient
folder. -/
def stC1 : RemoteState :=
  { folders := [{ fid := "root", name := "collection", parentId := "top" },
                { fid := "c1", name := "CHU_Bordeaux", parentId := "root" }],
    nextId := 0 }

/-- A file whose four-level path has no cached folder ids. -/
def fiC1 : FileInfo :=
  { id := 1, filename := "scan.dcm", filePath := "uploads/scan.dcm",
    fileSize := 4, syncedToGirder := false, girderFileId := none,
    centerCode := "Bordeaux", centerName := "CHU Bordeaux",
    patientId := "Patient_001", visitName := "Inclusion M0",
    documentName := "Bilan Biologique",
    centerGirderFolderId := none, patientGirderFolderId := none,
    visitGirderFolderId := none, docGirderFolderId := none }

/-- Counterexample to C1 as stated: in `stC1` the patient folder is
missing and its parent exists, so per the claim the resolver should
create `Patient_001` under the center and continue.  Instead
`find_girder_folder_path` fails at once with the patient-level
`ValueError`, even though creating the folder there is possible
(`get_or_create_folder` would succeed under the same parent). -/
theorem C1_counterexample :
    find_girder_folder_path fiC1 "root" stC1 =
      .error (.patientNotFound "Patient_001" "CHU_Bordeaux")
    ∧ (get_or_create_folder "Patient_001" "c1" true stC1).1.name = "Patient_001"
    ∧ (get_or_create_folder "Patient_001" "c1" true stC1).1.parentId = "c1"
    ∧ (get_or_create_folder "Patient_001" "c1" true stC1).1 ∈
        (get_or_create_folder "Patient_001" "c1" true stC1).2.folders := by
  exact ⟨rfl, by decide, by decide, by decide⟩

/-- Witness for the amended C1: applying the theorem at the concrete
state `stC1`: the missing patient folder is creatable by
`get_or_create_folder`, the resolver's traffic has no create request, and
its error names the missing patient level. -/
theorem C1_resolver_fails_without_creating_witness :
    ((get_or_create_folder "Patient_001" "c1" true stC1).1.name = "Patient_001"
      ∧ (get_or_create_folder "Patient_001" "c1" true stC1).1.parentId = "c1"
      ∧ (get_or_create_folder "Patient_001" "c1" true stC1).1 ∈
          (get_or_create_folder "Patient_001" "c1" true stC1).2.folders)
    ∧ get_or_create_folder "CHU_Bordeaux" "root" true stC1 =
        ({ fid := "c1", name := "CHU_Bordeaux", parentId := "root" }, stC1)
    ∧ errNamesMissingLevel (.patientNotFound "Patient_001" "CHU_Bordeaux") fiC1 stC1 := by
  refine ⟨C1_resolver_fails_without_creating.1 "Patient_001" "c1" stC1 (by decide),
    C1_resolver_fails_without_creating.2.1 "CHU_Bordeaux" "root" stC1
      { fid := "c1", name := "CHU_Bordeaux", parentId := "root" } (by decide),
    C1_resolver_fails_without_creating.2.2.2 fiC1 "root" stC1
      (.patientNotFound "Patient_001" "CHU_Bordeaux") rfl⟩

/-! ## Claim C4: stale cached folder ids -/

lemma resolveLevel_stale {cid : String} {st : RemoteState} {e : GirderErr}
    (he : get_folder_by_id cid st = .error e) (name parentId : String) :
    resolveLevel (some cid) name parentId st =
      resolveLevel none name parentId st := by
  simp only [resolveLevel, he]

/-- A remote state with only the root folder: the cached id `stale0`
does not resolve, and no center folder exists by name either. -/
def stC4 : RemoteState :=
  { folders := [{ fid := "root", name := "collection", parentId := "top" }],
    nextId := 0 }

/-- A file whose center level carries a stale cached folder id. -/
def fiC4 : FileInfo :=
  { fiC1 with centerGirderFolderId := some "stale0" }

/-- Counterexample to C4 as stated: the cached center id `stale0` fails
verification, and the claim says resolution then falls back to
find-or-create for (root, CHU_Bordeaux).  Creation is possible
(`get_or_create_folder` succeeds under the same parent), yet
`find_girder_folder_path` only falls back to the find, and fails with the
center-level `ValueError` because no folder of that name exists. -/
theorem C4_counterexample :
    (∃ e, get_folder_by_id "stale0" stC4 = .error e)
    ∧ find_girder_folder_path fiC4 "root" stC4 =
        .error (.centerNotFound "CHU_Bordeaux")
    ∧ (get_or_create_folder "CHU_Bordeaux" "root" true stC4).1.name = "CHU_Bordeaux"
    ∧ (get_or_create_folder "CHU_Bordeaux" "root" true stC4).1.parentId = "root" := by
  exact ⟨⟨.requestFailed ("Failed to get folder: " ++ "stale0"), rfl⟩, rfl,
    by decide, by decide⟩

/-- C4 (amended): for every path level whose cached remote folder id
fails the remote verification, `find_girder_folder_path` does not
propagate the verification error; it behaves exactly as if no id were
cached for that level — it falls back to the find-by-name path for that
(parent, name) pair, and therefore still fails (without creating) when
the name lookup also finds nothing. -/
theorem C4_stale_cache_falls_back_to_find :
    (∀ fi rootFolderId st cid, fi.centerGirderFolderId = some cid →
      (∃ e, get_folder_by_id cid st = .error e) →
      find_girder_folder_path fi rootFolderId st =
        find_girder_folder_path { fi with centerGirderFolderId := none } rootFolderId st)
    ∧ (∀ fi rootFolderId st cid, fi.patientGirderFolderId = some cid →
      (∃ e, get_folder_by_id cid st = .error e) →
      find_girder_folder_path fi rootFolderId st =
        find_girder_folder_path { fi with patientGirderFolderId := none } rootFolderId st)
    ∧ (∀ fi rootFolderId st cid, fi.visitGirderFolderId = some cid →
      (∃ e, get_folder_by_id cid st = .error e) →
      find_girder_folder_path fi rootFolderId st =
        find_girder_folder_path { fi with visitGirderFolderId := none } rootFolderId st)
    ∧ (∀ fi rootFolderId st cid, fi.docGirderFolderId = some cid →
      (∃ e, get_folder_by_id cid st = .error e) →
      find_girder_folder_path fi rootFolderId st =
        find_girder_folder_path { fi with docGirderFolderId := none } rootFolderId st) := by
  refine ⟨?_, ?_, ?_, ?_⟩ <;> intro fi rootFolderId st cid hcid ⟨e, he⟩ <;>
    simp only [find_girder_folder_path, centerGirderName, folderPathString, hcid,
      resolveLevel_stale he]

/-- Witness for the amended C4: the file with the stale cached center id
resolves exactly as the same file with no cached center id. -/
theorem C4_stale_cache_falls_back_to_find_witness :
    (∃ e, get_folder_by_id "stale0" stC4 = .error e)
    ∧ find_girder_folder_path fiC4 "root" stC4 =
        find_girder_folder_path { fiC4 with centerGirderFolderId := none } "root" stC4 := by
  refine ⟨⟨.requestFailed ("Failed to get folder: " ++ "stale0"), rfl⟩,
    C4_stale_cache_falls_back_to_find.1 fiC4 "root" stC4 "stale0" rfl
      ⟨.requestFailed ("Failed to get folder: " ++ "stale0"), rfl⟩⟩

/-! ## Claim C10: syncing an already-synced file is idempotent -/

/-- C10: when the file's record already has the synced flag set,
`sync_to_girder` returns the `already_synced` response carrying the
stored Girder file id, leaves the database unchanged, and performs no
remote request at all (in particular no upload). -/
theorem C10_already_synced_idempotent (fileId : Nat) (st : RemoteState)
    (disk : Disk) (srv : UploadServer) (db : Store) (fi : FileInfo)
    (hfi : get_file_with_path_info fileId db = some fi)
    (hs : fi.syncedToGirder = true) :
    sync_to_girder fileId st disk srv db =
      (.alreadySynced fi.girderFileId, db, []) := by
  simp only [sync_to_girder, hfi, hs, if_true]

/-- A database whose single file is already synced (`g1` stored). -/
def dbSynced : Store :=
  { centers := [{ id := 1, code := "Bordeaux", name := "CHU Bordeaux",
                  girderFolderId := some "c1" }],
    patients := [{ id := 1, centerId := 1, patientId := "Patient_001",
                   girderFolderId := some "p1" }],
    visits := [{ id := 1, patientId := 1, visitName := "Inclusion M0",
                 visitCode := "M0", girderFolderId := some "v1" }],
    documentTypes := [{ id := 1, visitId := 1, documentName := "Bilan Biologique",
                        documentCode := "bilan_biologique", girderFolderId := some "d1" }],
    files := [{ id := 1, documentTypeId := 1, filename := "scan.dcm",
                filePath := "uploads/scan.dcm", fileSize := 4,
                girderFileId := some "g1", syncedToGirder := true }],
    nextFileId := 2 }

/-- The joined path info of the synced file of `dbSynced`. -/
def fiSynced : FileInfo :=
  { id := 1, filename := "scan.dcm", filePath := "uploads/scan.dcm",
    fileSize := 4, syncedToGirder := true, girderFileId := some "g1",
    centerCode := "Bordeaux", centerName := "CHU Bordeaux",
    patientId := "Patient_001", visitName := "Inclusion M0",
    documentName := "Bilan Biologique",
    centerGirderFolderId := some "c1", patientGirderFolderId := some "p1",
    visitGirderFolderId := some "v1", docGirderFolderId := some "d1" }

/-- The empty disk. -/
def emptyDisk : Disk := { entries := [] }

/-- A chunk server that never answers anything useful (no call should be
made to it in the already-synced scenario). -/
def nullSrv : UploadServer := fun _ _ _ =>
  { received := none, idField := none, sizeField := none }

/-- Witness for C10: syncing the already-synced file of `dbSynced`
returns `already_synced` with the stored id `g1`, the database is
unchanged, and no remote call is made. -/
theorem C10_already_synced_idempotent_witness :
    get_file_with_path_info 1 dbSynced = some fiSynced
    ∧ sync_to_girder 1 stC1 emptyDisk nullSrv dbSynced =
        (.alreadySynced fiSynced.girderFileId, dbSynced, []) := by
  exact ⟨by decide,
    C10_already_synced_idempotent 1 stC1 emptyDisk nullSrv dbSynced fiSynced
      (by decide) rfl⟩

/-! ## Claim C8: batch sync aggregates per-file results -/

lemma countP_add_countP_not {α : Type} (l : List α) (p : α → Bool) :
    l.countP p + l.countP (fun a => !p a) = l.length := by
  induction l with
  | nil => rfl
  | cons a l ih => cases h : p a <;> simp [List.countP_cons, h] <;> omega

/-- The summary component of the batch fold: counters accumulate the
per-file outcomes and the details list collects one entry per file, in
order; the per-file outcome does not depend on the threaded database. -/
lemma syncFold_results (rootFolderId : String) (st : RemoteState)
    (disk : Disk) (srv : UploadServer) :
    ∀ (l : List FileInfo) (res : SyncResults) (db : Store),
    (l.foldl (syncStep rootFolderId st disk srv) (res, db)).1 =
      { totalFiles := res.totalFiles,
        synced := res.synced +
          l.countP (fun fi => (sync_single_file_outcome fi rootFolderId st disk srv).1),
        failed := res.failed +
          l.countP (fun fi => !(sync_single_file_outcome fi rootFolderId st disk srv).1),
        details := res.details ++ l.map (fun fi =>
          mkDetail fi (sync_single_file_outcome fi rootFolderId st disk srv)) } := by
  intro l
  induction l with
  | nil => intro res db; simp
  | cons fi l ih =>
    intro res db
    rw [List.foldl_cons, syncStep, sync_single_file, ih]
    cases hb : (sync_single_file_outcome fi rootFolderId st disk srv).1 <;>
      simp [List.countP_cons, hb] <;> omega

/-- C8: the batch sync returns a summary with `synced + failed =
total_files`, a details list with exactly one entry per unsynced file (in
order, so a per-file failure never stops the batch), and a file whose
folder path fails to resolve (while present on disk) gets a failure
detail whose message is the resolver's error naming the missing level. -/
theorem C8_batch_partial_failure (rootFolderId : String) (st : RemoteState)
    (disk : Disk) (srv : UploadServer) (db : Store) :
    ((extract_and_sync_files rootFolderId st disk srv db).1.synced
        + (extract_and_sync_files rootFolderId st disk srv db).1.failed
      = (extract_and_sync_files rootFolderId st disk srv db).1.totalFiles)
    ∧ (extract_and_sync_files rootFolderId st disk srv db).1.totalFiles
        = (get_unsynced_files db).length
    ∧ (extract_and_sync_files rootFolderId st disk srv db).1.details
        = (get_unsynced_files db).map (fun fi =>
            mkDetail fi (sync_single_file_outcome fi rootFolderId st disk srv))
    ∧ (∀ fi ∈ get_unsynced_files db, disk.found fi.filePath = true →
        ∀ e, find_girder_folder_path fi rootFolderId st = .error e →
          mkDetail fi (false, .resolveFailed e, none) ∈
            (extract_and_sync_files rootFolderId st disk srv db).1.details) := by
  have h := syncFold_results rootFolderId st disk srv (get_unsynced_files db)
    { totalFiles := (get_unsynced_files db).length, synced := 0, failed := 0,
      details := [] } db
  rw [extract_and_sync_files, h]
  refine ⟨?_, rfl, by simp, ?_⟩
  · simpa using countP_add_countP_not (get_unsynced_files db) _
  · intro fi hfi hd e he
    simp only [List.nil_append]
    refine List.mem_map.mpr ⟨fi, hfi, ?_⟩
    have : sync_single_file_outcome fi rootFolderId st disk srv =
        (false, .resolveFailed e, none) := by
      simp only [sync_single_file_outcome, hd, he, Bool.not_true,
        Bool.false_eq_true, if_false]
    rw [this]

/-- The batch-witness database: five unsynced files; files 1, 2, 4, 5
belong to a document type whose folder chain exists remotely, file 3
belongs to `Consentement_Eclaire`, whose folder is missing remotely. -/
def dbBatch : Store :=
  { centers := [{ id := 1, code := "Bordeaux", name := "CHU Bordeaux",
                  girderFolderId := some "c1" }],
    patients := [{ id := 1, centerId := 1, patientId := "Patient_001",
                   girderFolderId := some "p1" }],
    visits := [{ id := 1, patientId := 1, visitName := "Inclusion M0",
                 visitCode := "M0", girderFolderId := some "v1" }],
    documentTypes := [{ id := 1, visitId := 1, documentName := "Bilan Biologique",
                        documentCode := "bilan_biologique", girderFolderId := some "d1" },
                      { id := 2, visitId := 1, documentName := "Consentement_Eclaire",
                        documentCode := "consentement_eclaire", girderFolderId := none }],
    files := [{ id := 1, documentTypeId := 1, filename := "a1.dcm",
                filePath := "up/a1.dcm", fileSize := 3, girderFileId := none,
                syncedToGirder := false },
              { id := 2, documentTypeId := 1, filename := "a2.dcm",
                filePath := "up/a2.dcm", fileSize := 3, girderFileId := none,
                syncedToGirder := false },
              { id := 3, documentTypeId := 2, filename := "a3.pdf",
                filePath := "up/a3.pdf", fileSize := 3, girderFileId := none,
                syncedToGirder := false },
              { id := 4, documentTypeId := 1, filename := "a4.dcm",
                filePath := "up/a4.dcm", fileSize := 3, girderFileId := none,
                syncedToGirder := false },
              { id := 5, documentTypeId := 1, filename := "a5.dcm",
                filePath := "up/a5.dcm", fileSize := 3, girderFileId := none,
                syncedToGirder := false }],
    nextFileId := 6 }

/-- The remote state for the batch witness: the folder chain for
`Bilan Biologique` exists; no `Consentement_Eclaire` folder. -/
def stBatch : RemoteState :=
  { folders := [{ fid := "root", name := "collection", parentId := "top" },
                { fid := "c1", name := "CHU_Bordeaux", parentId := "root" },
                { fid := "p1", name := "Patient_001", parentId := "c1" },
                { fid := "v1", name := "Inclusion M0", parentId := "p1" },
                { fid := "d1", name := "Bilan Biologique", parentId := "v1" }],
    nextId := 0 }

/-- The disk for the batch witness: all five files present. -/
def diskBatch : Disk :=
  { entries := [("up/a1.dcm", 3), ("up/a2.dcm", 3), ("up/a3.pdf", 3),
                ("up/a4.dcm", 3), ("up/a5.dcm", 3)] }

/-- A single-chunk server that returns a complete file document. -/
def okSrv : UploadServer := fun _ name _ =>
  { received := none, idField := some ("gid_" ++ name), sizeField := some 3 }

/-- The path info of file 3 of `dbBatch`. -/
def fiBatch3 : FileInfo :=
  { id := 3, filename := "a3.pdf", filePath := "up/a3.pdf",
    fileSize := 3, syncedToGirder := false, girderFileId := none,
    centerCode := "Bordeaux", centerName := "CHU Bordeaux",
    patientId := "Patient_001", visitName := "Inclusion M0",
    documentName := "Consentement_Eclaire",
    centerGirderFolderId := some "c1", patientGirderFolderId := some "p1",
    visitGirderFolderId := some "v1", docGirderFolderId := none }

/-- Witness for C8: on the five-file batch where file 3's folder level is
missing remotely, the summary reports 4 synced and 1 failed out of 5,
with five detail entries, and file 3's failure message is the
document-level not-found error naming `Consentement_Eclaire`. -/
theorem C8_batch_partial_failure_witness :
    (extract_and_sync_files "root" stBatch diskBatch okSrv dbBatch).1.synced
        + (extract_and_sync_files "root" stBatch diskBatch okSrv dbBatch).1.failed
      = (extract_and_sync_files "root" stBatch diskBatch okSrv dbBatch).1.totalFiles
    ∧ (extract_and_sync_files "root" stBatch diskBatch okSrv dbBatch).1.synced = 4
    ∧ (extract_and_sync_files "root" stBatch diskBatch okSrv dbBatch).1.failed = 1
    ∧ (extract_and_sync_files "root" stBatch diskBatch okSrv dbBatch).1.totalFiles = 5
    ∧ mkDetail fiBatch3
        (false, .resolveFailed (.documentNotFound "Consentement_Eclaire" "Inclusion M0"), none)
        ∈ (extract_and_sync_files "root" stBatch diskBatch okSrv dbBatch).1.details := by
  refine ⟨(C8_batch_partial_failure "root" stBatch diskBatch okSrv dbBatch).1,
    by decide, by decide, by decide,
    (C8_batch_partial_failure "root" stBatch diskBatch okSrv dbBatch).2.2.2 fiBatch3
      (by decide) (by decide)
      (.documentNotFound "Consentement_Eclaire" "Inclusion M0") rfl⟩

/-! ## Claim C9: file-record invariants of the core operations -/

/-- The record invariant: a synced file row always stores a remote file
id. -/
def FileInv (db : Store) : Prop :=
  ∀ f ∈ db.files, f.syncedToGirder = true → f.girderFileId.isSome = true

/-- The operations of this core that touch the file table. -/
inductive CoreOp where
  | createFileOp (documentTypeId : Nat) (filename filePath : String) (fileSize : Nat)
  | markSyncedOp (fileId : Nat) (girderFileId : String)
  | singleSyncOp (fi : FileInfo) (rootFolderId : String) (st : RemoteState)
      (disk : Disk) (srv : UploadServer)
  | batchSyncOp (rootFolderId : String) (st : RemoteState) (disk : Disk)
      (srv : UploadServer)
  | appSyncOp (fileId : Nat) (st : RemoteState) (disk : Disk) (srv : UploadServer)

/-- The database effect of each core operation. -/
def applyOp : CoreOp → Store → Store
  | .createFileOp dt fn fp sz, db => (db_create_file dt fn fp sz db).2
  | .markSyncedOp fid gid, db => mark_file_synced fid gid db
  | .singleSyncOp fi root st disk srv, db => (sync_single_file fi root st disk srv db).2
  | .batchSyncOp root st disk srv, db => (extract_and_sync_files root st disk srv db).2
  | .appSyncOp fid st disk srv, db => (sync_to_girder fid st disk srv db).2.1

/-- One database transition preserving the invariant and deleting no file
record. -/
def StoreStep (db db' : Store) : Prop :=
  (FileInv db → FileInv db') ∧ ∀ f ∈ db.files, ∃ g ∈ db'.files, g.id = f.id

lemma storeStep_refl (db : Store) : StoreStep db db :=
  ⟨id, fun f hf => ⟨f, hf, rfl⟩⟩

lemma storeStep_trans {a b c : Store} (h1 : StoreStep a b) (h2 : StoreStep b c) :
    StoreStep a c := by
  refine ⟨fun h => h2.1 (h1.1 h), fun f hf => ?_⟩
  obtain ⟨g, hg, hgid⟩ := h1.2 f hf
  obtain ⟨g', hg', hgid'⟩ := h2.2 g hg
  exact ⟨g', hg', hgid'.trans hgid⟩

lemma storeStep_mark (fid : Nat) (gid : String) (db : Store) :
    StoreStep db (mark_file_synced fid gid db) := by
  constructor
  · intro h f hf hs
    rw [mark_file_synced] at hf
    obtain ⟨g, hg, rfl⟩ := List.mem_map.mp hf
    by_cases hid : g.id = fid
    · simp [hid]
    · simp only [hid, if_false] at hs ⊢
      exact h g hg hs
  · intro f hf
    refine ⟨(if f.id = fid then
        { f with syncedToGirder := true, girderFileId := some gid } else f),
      ?_, ?_⟩
    · exact List.mem_map.mpr ⟨f, hf, rfl⟩
    · by_cases hid : f.id = fid <;> simp [hid]

lemma storeStep_create (dt : Nat) (fn fp : String) (sz : Nat) (db : Store) :
    StoreStep db (db_create_file dt fn fp sz db).2 := by
  constructor
  · intro h f hf hs
    rw [db_create_file] at hf
    rcases List.mem_append.mp hf with hmem | hmem
    · exact h f hmem hs
    · simp at hmem
      rw [hmem] at hs
      exact absurd hs (by simp)
  · intro f hf
    refine ⟨f, ?_, rfl⟩
    rw [db_create_file]
    exact List.mem_append.mpr (Or.inl hf)

lemma sync_single_file_db_cases (fi : FileInfo) (root : String)
    (st : RemoteState) (disk : Disk) (srv : UploadServer) (db : Store) :
    (sync_single_file fi root st disk srv db).2 = db ∨
      ∃ gid, (sync_single_file fi root st disk srv db).2 =
        mark_file_synced fi.id gid db := by
  rw [sync_single_file]
  rcases h : sync_single_file_outcome fi root st disk srv with ⟨b, m, g⟩
  cases b
  · left; rcases g with _ | gid <;> rfl
  · rcases g with _ | gid
    · left; rfl
    · right; exact ⟨gid, rfl⟩

lemma storeStep_single (fi : FileInfo) (root : String) (st : RemoteState)
    (disk : Disk) (srv : UploadServer) (db : Store) :
    StoreStep db (sync_single_file fi root st disk srv db).2 := by
  rcases sync_single_file_db_cases fi root st disk srv db with h | ⟨gid, h⟩
  · rw [h]; exact storeStep_refl db
  · rw [h]; exact storeStep_mark fi.id gid db

lemma storeStep_syncFold (root : String) (st : RemoteState) (disk : Disk)
    (srv : UploadServer) :
    ∀ (l : List FileInfo) (res : SyncResults) (db : Store),
    StoreStep db ((l.foldl (syncStep root st disk srv) (res, db)).2) := by
  intro l
  induction l with
  | nil => intro res db; exact storeStep_refl db
  | cons fi l ih =>
    intro res db
    rw [List.foldl_cons]
    refine storeStep_trans (storeStep_single fi root st disk srv db) ?_
    have := ih
      { totalFiles := res.totalFiles,
        synced := res.synced + (if (sync_single_file fi root st disk srv db).1.1 then 1 else 0),
        failed := res.failed + (if (sync_single_file fi root st disk srv db).1.1 then 0 else 1),
        details := res.details ++ [mkDetail fi (sync_single_file fi root st disk srv db).1] }
      ((sync_single_file fi root st disk srv db).2)
    exact this

lemma storeStep_batch (root : String) (st : RemoteState) (disk : Disk)
    (srv : UploadServer) (db : Store) :
    StoreStep db (extract_and_sync_files root st disk srv db).2 :=
  storeStep_syncFold root st disk srv (get_unsynced_files db) _ db

lemma storeStep_app (fid : Nat) (st : RemoteState) (disk : Disk)
    (srv : UploadServer) (db : Store) :
    StoreStep db (sync_to_girder fid st disk srv db).2.1 := by
  rw [sync_to_girder]
  repeat' split
  all_goals try (dsimp only; repeat' split)
  all_goals first
    | exact storeStep_refl db
    | exact storeStep_mark fid _ db

/-- C9: every core operation preserves the invariant "a synced file row
stores a remote file id" and never deletes a file record.  Moreover
`mark_file_synced` is the only way the flag is set, and it sets the flag
and the remote id together in one update; the sync path touches the
database only when the upload returned a document carrying a remote file
id, and then exactly through `mark_file_synced`. -/
theorem C9_synced_flag_invariant (op : CoreOp) (db : Store) (hInv : FileInv db) :
    FileInv (applyOp op db)
    ∧ (∀ f ∈ db.files, ∃ g ∈ (applyOp op db).files, g.id = f.id)
    ∧ (∀ fid gid, ∀ f ∈ db.files, f.id = fid →
        { f with syncedToGirder := true, girderFileId := some gid } ∈
          (applyOp (.markSyncedOp fid gid) db).files)
    ∧ (∀ fi rootFolderId st disk srv,
        (sync_single_file fi rootFolderId st disk srv db).2 ≠ db →
        ∃ folderId folderPath gid doc,
          find_girder_folder_path fi rootFolderId st = .ok (folderId, folderPath)
          ∧ (uploadFile (disk.sizeOf fi.filePath) (srv folderId fi.filename)).result
              = .ok doc
          ∧ doc.idField = some gid
          ∧ (sync_single_file fi rootFolderId st disk srv db).2 =
              mark_file_synced fi.id gid db) := by
  have hstep : StoreStep db (applyOp op db) := by
    cases op with
    | createFileOp dt fn fp sz => exact storeStep_create dt fn fp sz db
    | markSyncedOp fid gid => exact storeStep_mark fid gid db
    | singleSyncOp fi root st disk srv => exact storeStep_single fi root st disk srv db
    | batchSyncOp root st disk srv => exact storeStep_batch root st disk srv db
    | appSyncOp fid st disk srv => exact storeStep_app fid st disk srv db
  refine ⟨hstep.1 hInv, hstep.2, ?_, ?_⟩
  · intro fid gid f hf hfid
    show _ ∈ (mark_file_synced fid gid db).files
    rw [mark_file_synced]
    refine List.mem_map.mpr ⟨f, hf, ?_⟩
    rw [if_pos hfid]
  · intro fi rootFolderId st disk srv hne
    by_cases hd : disk.found fi.filePath
    · rcases hres : find_girder_folder_path fi rootFolderId st with e | ⟨folderId, folderPath⟩
      · exfalso
        apply hne
        rw [sync_single_file]
        have : sync_single_file_outcome fi rootFolderId st disk srv =
            (false, .resolveFailed e, none) := by
          simp [sync_single_file_outcome, hd, hres]
        rw [this]
      · rcases hup : (uploadFile (disk.sizeOf fi.filePath) (srv folderId fi.filename)).result
          with e | doc
        · exfalso
          apply hne
          rw [sync_single_file]
          have : sync_single_file_outcome fi rootFolderId st disk srv =
              (false, .uploadFailed e, none) := by
            simp [sync_single_file_outcome, hd, hres, hup]
          rw [this]
        · rcases hid : doc.idField with _ | gid
          · exfalso
            apply hne
            rw [sync_single_file]
            have : sync_single_file_outcome fi rootFolderId st disk srv =
                (false, .unexpectedError, none) := by
              simp [sync_single_file_outcome, hd, hres, hup, hid]
            rw [this]
          · refine ⟨folderId, folderPath, gid, doc, rfl, hup, hid, ?_⟩
            rw [sync_single_file]
            have : sync_single_file_outcome fi rootFolderId st disk srv =
                (true, .syncedTo folderPath, some gid) := by
              simp [sync_single_file_outcome, hd, hres, hup, hid]
            rw [this]
    · exfalso
      apply hne
      rw [sync_single_file]
      have : sync_single_file_outcome fi rootFolderId st disk srv =
          (false, .fileNotFoundOnDisk fi.filePath, none) := by
        simp [sync_single_file_outcome, hd]
      rw [this]

/-- One unsynced file row (no remote id). -/
def rowUnsynced : FileRow :=
  { id := 1, documentTypeId := 1, filename := "scan.dcm",
    filePath := "uploads/scan.dcm", fileSize := 4, girderFileId := none,
    syncedToGirder := false }

/-- A database holding one unsynced file record (no remote id). -/
def dbUnsynced : Store :=
  { dbSynced with files := [rowUnsynced] }

/-- Witness for C9: on the concrete store `dbUnsynced` (which satisfies
the invariant), marking file 1 synced with id `g9` preserves the
invariant, deletes nothing, and sets the flag and the id together. -/
theorem C9_synced_flag_invariant_witness :
    FileInv dbUnsynced
    ∧ FileInv (applyOp (.markSyncedOp 1 "g9") dbUnsynced)
    ∧ (∃ g ∈ (applyOp (.markSyncedOp 1 "g9") dbUnsynced).files, g.id = rowUnsynced.id)
    ∧ { rowUnsynced with syncedToGirder := true, girderFileId := some "g9" } ∈
        (applyOp (.markSyncedOp 1 "g9") dbUnsynced).files := by
  have h := C9_synced_flag_invariant (.markSyncedOp 1 "g9") dbUnsynced
    (by unfold FileInv; decide)
  exact ⟨by unfold FileInv; decide, h.1, h.2.1 rowUnsynced (by decide),
    h.2.2.1 1 "g9" rowUnsynced (by decide) rfl⟩

/-! ## Claim C5: persistence of resolved folder ids -/

/-- `dbBatch` with no cached folder ids anywhere. -/
def dbNoCache : Store :=
  { centers := [{ id := 1, code := "Bordeaux", name := "CHU Bordeaux",
                  girderFolderId := none }],
    patients := [{ id := 1, centerId := 1, patientId := "Patient_001",
                   girderFolderId := none }],
    visits := [{ id := 1, patientId := 1, visitName := "Inclusion M0",
                 visitCode := "M0", girderFolderId := none }],
    documentTypes := [{ id := 1, visitId := 1, documentName := "Bilan Biologique",
                        documentCode := "bilan_biologique", girderFolderId := none }],
    files := [{ id := 1, documentTypeId := 1, filename := "a1.dcm",
                filePath := "up/a1.dcm", fileSize := 3, girderFileId := none,
                syncedToGirder := false }],
    nextFileId := 2 }

/-- The path info of the file of `dbNoCache`: no cached ids. -/
def fiNoCache : FileInfo :=
  { id := 1, filename := "a1.dcm", filePath := "up/a1.dcm", fileSize := 3,
    syncedToGirder := false, girderFileId := none,
    centerCode := "Bordeaux", centerName := "CHU Bordeaux",
    patientId := "Patient_001", visitName := "Inclusion M0",
    documentName := "Bilan Biologique",
    centerGirderFolderId := none, patientGirderFolderId := none,
    visitGirderFolderId := none, docGirderFolderId := none }

/-- Counterexample to C5 as stated: syncing the file of `dbNoCache`
resolves every level by a remote find (four `findChild` requests) and
succeeds, yet afterwards the folder tables still record no ids — nothing
was persisted — and a repeated resolution of the same path performs the
same four remote find requests again instead of local lookups. -/
theorem C5_counterexample :
    find_girder_folder_path fiNoCache "root" stBatch = .ok ("d1",
      "CHU_Bordeaux/Patient_001/Inclusion M0/Bilan Biologique")
    ∧ (sync_single_file fiNoCache "root" stBatch diskBatch okSrv dbNoCache).1.1 = true
    ∧ (sync_single_file fiNoCache "root" stBatch diskBatch okSrv dbNoCache).2.centers =
        dbNoCache.centers
    ∧ (sync_single_file fiNoCache "root" stBatch diskBatch okSrv dbNoCache).2.documentTypes =
        dbNoCache.documentTypes
    ∧ get_file_with_path_info 1
        ((sync_single_file fiNoCache "root" stBatch diskBatch okSrv dbNoCache).2) =
        some { fiNoCache with syncedToGirder := true, girderFileId := some "gid_a1.dcm" }
    ∧ find_girder_folder_path_calls
        { fiNoCache with syncedToGirder := true, girderFileId := some "gid_a1.dcm" }
        "root" stBatch =
        [.findChild "CHU_Bordeaux" "root", .findChild "Patient_001" "c1",
         .findChild "Inclusion M0" "p1", .findChild "Bilan Biologique" "v1"] := by
  refine ⟨rfl, by decide, by decide, by decide, by decide, by decide⟩

/-- Equality of the four folder tables of two stores (the file table may
differ). -/
def FolderTablesEq (db db' : Store) : Prop :=
  db'.centers = db.centers ∧ db'.patients = db.patients ∧
    db'.visits = db.visits ∧ db'.documentTypes = db.documentTypes

lemma folderTablesEq_refl (db : Store) : FolderTablesEq db db :=
  ⟨rfl, rfl, rfl, rfl⟩

lemma folderTablesEq_trans {a b c : Store} (h1 : FolderTablesEq a b)
    (h2 : FolderTablesEq b c) : FolderTablesEq a c :=
  ⟨h2.1.trans h1.1, h2.2.1.trans h1.2.1, h2.2.2.1.trans h1.2.2.1,
   h2.2.2.2.trans h1.2.2.2⟩

lemma folderTablesEq_mark (fid : Nat) (gid : String) (db : Store) :
    FolderTablesEq db (mark_file_synced fid gid db) :=
  ⟨rfl, rfl, rfl, rfl⟩

lemma folderTablesEq_single (fi : FileInfo) (root : String) (st : RemoteState)
    (disk : Disk) (srv : UploadServer) (db : Store) :
    FolderTablesEq db (sync_single_file fi root st disk srv db).2 := by
  rcases sync_single_file_db_cases fi root st disk srv db with h | ⟨gid, h⟩
  · rw [h]; exact folderTablesEq_refl db
  · rw [h]; exact folderTablesEq_mark fi.id gid db

lemma folderTablesEq_syncFold (root : String) (st : RemoteState) (disk : Disk)
    (srv : UploadServer) :
    ∀ (l : List FileInfo) (res : SyncResults) (db : Store),
    FolderTablesEq db ((l.foldl (syncStep root st disk srv) (res, db)).2) := by
  intro l
  induction l with
  | nil => intro res db; exact folderTablesEq_refl db
  | cons fi l ih =>
    intro res db
    rw [List.foldl_cons]
    exact folderTablesEq_trans (folderTablesEq_single fi root st disk srv db) (ih _ _)

lemma folderTablesEq_app (fid : Nat) (st : RemoteState) (disk : Disk)
    (srv : UploadServer) (db : Store) :
    FolderTablesEq db (sync_to_girder fid st disk srv db).2.1 := by
  rw [sync_to_girder]
  repeat' split
  all_goals try (dsimp only; repeat' split)
  all_goals exact folderTablesEq_refl db

lemma foldDocTypes_centers (vg : String) :
    ∀ (l : List DocumentTypeRow) (acc : Store × RemoteState),
    ((l.foldl (processDocType vg) acc).1).centers = (acc.1).centers := by
  intro l
  induction l with
  | nil => intro acc; rfl
  | cons dt l ih =>
    intro acc
    rw [List.foldl_cons, ih]
    rcases acc with ⟨db, st⟩
    cases h : dt.girderFolderId.isNone <;>
      simp [processDocType, updateDocFolderId, h]

lemma processVisit_centers (pg : String) (acc : Store × RemoteState)
    (vt : VisitTree) : ((processVisit pg acc vt).1).centers = (acc.1).centers := by
  rcases acc with ⟨db, st⟩
  rw [processVisit, foldDocTypes_centers]
  cases h : vt.row.girderFolderId.isNone <;>
    simp [updateVisitFolderId, h]

lemma foldVisits_centers (pg : String) :
    ∀ (l : List VisitTree) (acc : Store × RemoteState),
    ((l.foldl (processVisit pg) acc).1).centers = (acc.1).centers := by
  intro l
  induction l with
  | nil => intro acc; rfl
  | cons vt l ih =>
    intro acc
    rw [List.foldl_cons, ih, processVisit_centers]

lemma processPatient_centers (cg : String) (acc : Store × RemoteState)
    (pt : PatientTree) : ((processPatient cg acc pt).1).centers = (acc.1).centers := by
  rcases acc with ⟨db, st⟩
  rw [processPatient, foldVisits_centers]
  cases h : pt.row.girderFolderId.isNone <;>
    simp [updatePatientFolderId, h]

lemma foldPatients_centers (cg : String) :
    ∀ (l : List PatientTree) (acc : Store × RemoteState),
    ((l.foldl (processPatient cg) acc).1).centers = (acc.1).centers := by
  intro l
  induction l with
  | nil => intro acc; rfl
  | cons pt l ih =>
    intro acc
    rw [List.foldl_cons, ih, processPatient_centers]

/-- The folder id `get_or_create_folder` yields for a center tree node. -/
def newCenterFid (root : String) (st : RemoteState) (ct : CenterTree) : String :=
  (get_or_create_folder ("CHU_" ++ ct.row.code) root true st).1.fid

lemma processCenter_centers (root : String) (db : Store) (st : RemoteState)
    (ct : CenterTree) :
    ((processCenter root (db, st) ct).1).centers =
      if ct.row.girderFolderId.isNone then
        db.centers.map (fun c =>
          if c.id = ct.row.id then { c with girderFolderId := some (newCenterFid root st ct) }
          else c)
      else db.centers := by
  rw [processCenter, foldPatients_centers]
  cases h : ct.row.girderFolderId.isNone <;>
    simp [updateCenterFolderId, newCenterFid, h]

lemma schemaFold_centers_some (root : String) :
    ∀ (ts : List CenterTree) (db : Store) (st : RemoteState),
    (∀ c ∈ db.centers, c.girderFolderId.isSome = true ∨
      ∃ ct ∈ ts, ct.row.id = c.id ∧ ct.row.girderFolderId.isNone = true) →
    ∀ c' ∈ ((ts.foldl (processCenter root) (db, st)).1).centers,
      c'.girderFolderId.isSome = true := by
  intro ts
  induction ts with
  | nil =>
    intro db st hinv c' hc'
    rcases hinv c' hc' with h | ⟨ct, hct, _⟩
    · exact h
    · exact absurd hct (List.not_mem_nil ct)
  | cons ct ts ih =>
    intro db st hinv c' hc'
    rw [List.foldl_cons] at hc'
    rcases hacc : processCenter root (db, st) ct with ⟨db1, st1⟩
    rw [hacc] at hc'
    refine ih db1 st1 ?_ c' hc'
    intro c1 hc1
    have h1 : db1.centers = ((processCenter root (db, st) ct).1).centers := by
      rw [hacc]
    rw [processCenter_centers] at h1
    by_cases hguard : ct.row.girderFolderId.isNone = true
    · rw [if_pos hguard] at h1
      rw [h1] at hc1
      obtain ⟨c, hc, hceq⟩ := List.mem_map.mp hc1
      by_cases hid : c.id = ct.row.id
      · rw [if_pos hid] at hceq
        left
        rw [← hceq]
        rfl
      · rw [if_neg hid] at hceq
        subst hceq
        rcases hinv c hc with h | ⟨ct', hct', hid', hnone'⟩
        · left; exact h
        · rcases List.mem_cons.mp hct' with rfl | hct''
          · exact absurd hid'.symm hid
          · exact Or.inr ⟨ct', hct'', hid', hnone'⟩
    · rw [if_neg hguard] at h1
      rw [h1] at hc1
      rcases hinv c1 hc1 with h | ⟨ct', hct', hid', hnone'⟩
      · left; exact h
      · rcases List.mem_cons.mp hct' with rfl | hct''
        · exact absurd hnone' hguard
        · exact Or.inr ⟨ct', hct'', hid', hnone'⟩

/-- After `create_girder_schema`, every center row records a Girder
folder id. -/
lemma schema_centers_persisted (root : String) (db : Store) (st : RemoteState) :
    ∀ c' ∈ ((create_girder_schema root db st).1).centers,
      c'.girderFolderId.isSome = true := by
  apply schemaFold_centers_some
  intro c hc
  cases h : c.girderFolderId with
  | some gid => left; rfl
  | none =>
    right
    exact ⟨_, List.mem_map.mpr ⟨c, hc, rfl⟩, rfl, by simp [h]⟩

/-- C5 (amended): the sync path persists no folder ids — neither
`sync_single_file` nor the batch sync nor the `sync_to_girder` endpoint
ever changes the four folder tables, so a repeated resolution of the same
path repeats the remote lookups.  Write-through persistence of folder ids
happens only in `create_girder_schema`: after it runs, every center row
records a Girder folder id (written for the rows that had none). -/
theorem C5_folder_id_persistence :
    (∀ fi rootFolderId st disk srv db,
      FolderTablesEq db (sync_single_file fi rootFolderId st disk srv db).2)
    ∧ (∀ rootFolderId st disk srv db,
      FolderTablesEq db (extract_and_sync_files rootFolderId st disk srv db).2)
    ∧ (∀ fileId st disk srv db,
      FolderTablesEq db (sync_to_girder fileId st disk srv db).2.1)
    ∧ (∀ rootFolderId db st,
      ∀ c ∈ ((create_girder_schema rootFolderId db st).1).centers,
        c.girderFolderId.isSome = true) := by
  refine ⟨?_, ?_, ?_, ?_⟩
  · intro fi rootFolderId st disk srv db
    exact folderTablesEq_single fi rootFolderId st disk srv db
  · intro rootFolderId st disk srv db
    exact folderTablesEq_syncFold rootFolderId st disk srv (get_unsynced_files db) _ db
  · intro fileId st disk srv db
    exact folderTablesEq_app fileId st disk srv db
  · intro rootFolderId db st
    exact schema_centers_persisted rootFolderId db st

/-- A database holding one center row with no recorded folder id. -/
def dbSchemaW : Store :=
  { centers := [{ id := 1, code := "Bordeaux", name := "CHU Bordeaux",
                  girderFolderId := none }],
    patients := [], visits := [], documentTypes := [], files := [],
    nextFileId := 1 }

/-- A remote state holding only the root folder. -/
def stRootOnly : RemoteState :=
  { folders := [{ fid := "root", name := "collection", parentId := "top" }],
    nextId := 0 }

/-- Witness for the amended C5: the successful sync of `fiNoCache` leaves
the folder tables of `dbNoCache` unchanged, while `create_girder_schema`
on `dbSchemaW` persists the created folder's id (`folder0`) into the
center row. -/
theorem C5_folder_id_persistence_witness :
    FolderTablesEq dbNoCache
      (sync_single_file fiNoCache "root" stBatch diskBatch okSrv dbNoCache).2
    ∧ ((⟨1, "Bordeaux", "CHU Bordeaux", some "folder0"⟩ : CenterRow) ∈
          ((create_girder_schema "root" dbSchemaW stRootOnly).1).centers
        ∧ (⟨1, "Bordeaux", "CHU Bordeaux", some "folder0"⟩ : CenterRow).girderFolderId.isSome
            = true) := by
  refine ⟨C5_folder_id_persistence.1 fiNoCache "root" stBatch diskBatch okSrv dbNoCache,
    by decide,
    C5_folder_id_persistence.2.2.2 "root" dbSchemaW stRootOnly
      ⟨1, "Bordeaux", "CHU Bordeaux", some "folder0"⟩ (by decide)⟩
